import Mathlib

/-!
# tsimd: mask reductions and lane selection

A shallow embedding of `tsimd/detail/functions/algorithm.h`.

* A `pack<T, W>` is a function from the lane indices `Fin W` to `T`.
* Lanes of the 4- and 8-wide float masks, and of the value packs the hardware paths read, are
  32-bit patterns, kept as natural numbers below `2 ^ 32`.
* Every `#if` branch of a source function is a definition of its own: the `fallback` one is the
  `#else` loop, the others are named after the instruction set that guards them.
* The x86 intrinsics are given their documented lane semantics.
* A callable of the iteration functions is a function of the lane index the loop has reached
  and of the world in which it is called; it returns the world it leaves. A world holds the
  mask and the pack the loop reads, which the callable may have captured and may write, and a
  state `σ` that stands for everything else the callable can reach.
-/

namespace tsimd

/-! ## Data model -/

/-- Modelled from the spec: the lane container `pack<T, W>` of `pack.h`, which is not part of the
sources at hand. It has `W` lanes of element type `T`, read and written by position in `[0, W)`;
`p i` is `p[i]`. -/
abbrev pack (T : Type) (W : Nat) : Type := Fin W → T

/-- The lane indices `0, 1, ..., W - 1` in the order a loop `for (int i = 0; i < W; ++i)` visits
them. -/
def lanes (W : Nat) : List (Fin W) := List.finRange W

/-- The 32-bit pattern with every bit set: the true pattern of a mask lane. -/
def allOnes : Nat := 0xFFFFFFFF

/-- The 32-bit pattern with every bit clear: the false pattern of a mask lane. -/
def allZeros : Nat := 0x00000000

/-- A mask whose lanes each hold one of the two canonical patterns. -/
def canonical {W : Nat} (m : pack Nat W) : Prop := ∀ i, m i = allOnes ∨ m i = allZeros

/-- A pack whose lanes are 32-bit patterns. -/
def lanes32 {W : Nat} (p : pack Nat W) : Prop := ∀ i, p i < 2 ^ 32

/-! ## Intrinsics used by the reductions -/

/-- Sign bit (bit 31) of a 32-bit lane. -/
def signBit (v : Nat) : Bool := v.testBit 31

/-- Packs the sign bits of a sequence of lanes into an integer, first lane in bit 0. -/
def signField : List Nat → Nat
  | [] => 0
  | v :: vs => (if signBit v then 1 else 0) + 2 * signField vs

/-- Intrinsic `_mm_movemask_ps`: bit `i` of the result is the sign bit of lane `i`, for the 4
lanes of a 128-bit register. -/
def _mm_movemask_ps (a : pack Nat 4) : Nat := signField ((lanes 4).map a)

/-- Intrinsic `_mm256_movemask_ps`: bit `i` of the result is the sign bit of lane `i`, for the 8
lanes of a 256-bit register. -/
def _mm256_movemask_ps (a : pack Nat 8) : Nat := signField ((lanes 8).map a)

/-- Intrinsic `_mm256_testz_ps`: computes the bitwise AND of `a` and `b` and returns 1 when the
sign bit of every 32-bit lane of it is zero, 0 otherwise. -/
def _mm256_testz_ps (a b : pack Nat 8) : Nat :=
  if (lanes 8).all (fun i => !signBit (a i &&& b i)) then 1 else 0

/-- Intrinsic `_mm512_kortestz`: ORs two 16-bit mask registers and returns 1 when the result is
all zeros, 0 otherwise. -/
def _mm512_kortestz (k1 k2 : Nat) : Nat := if (k1 ||| k2) % 2 ^ 16 = 0 then 1 else 0

/-- Intrinsic `_mm512_kortestc`: ORs two 16-bit mask registers and returns 1 when the result is
all ones, 0 otherwise. -/
def _mm512_kortestc (k1 k2 : Nat) : Nat := if (k1 ||| k2) % 2 ^ 16 = 0xFFFF then 1 else 0

/-! ## any -/

/-- The fallback loop of `any`, over the lane indices still to visit:
`for (...) { if (a[i]) return true; } return false;`. The argument `toBool` is the conversion of
a mask lane to `bool` that `if (a[i])` applies. -/
def any_scan {B : Type} {W : Nat} (toBool : B → Bool) (a : pack B W) : List (Fin W) → Bool
  | [] => false
  | i :: rest => if toBool (a i) then true else any_scan toBool a rest

/-- The 1-wide `any`: `return a[0];`. -/
def any1 {B : Type} (toBool : B → Bool) (a : pack B 1) : Bool := toBool (a 0)

/-- The 4-wide `any`, `#else` branch. -/
def any4_fallback {B : Type} (toBool : B → Bool) (a : pack B 4) : Bool :=
  any_scan toBool a (lanes 4)

/-- The 4-wide `any`, `__SSE__` branch: `_mm_movemask_ps(a) != 0x0`. -/
def any4_sse (a : pack Nat 4) : Bool := _mm_movemask_ps a != 0x0

/-- The 8-wide `any`, `#else` branch. -/
def any8_fallback {B : Type} (toBool : B → Bool) (a : pack B 8) : Bool :=
  any_scan toBool a (lanes 8)

/-- The 8-wide `any`, `__AVX__` branch: `!_mm256_testz_ps(a, a)`; the `!` of C maps 0 to true and
everything else to false. -/
def any8_avx (a : pack Nat 8) : Bool := _mm256_testz_ps a a == 0

/-- The 16-wide `any`, `#else` branch. -/
def any16_fallback {B : Type} (toBool : B → Bool) (a : pack B 16) : Bool :=
  any_scan toBool a (lanes 16)

/-- The 16-wide `any`, `__AVX512F__` branch, on the 16-bit mask register the mask converts to:
`_mm512_kortestz(a, a) == 0`. -/
def any16_avx512 (a : Nat) : Bool := _mm512_kortestz a a == 0

/-! ## none -/

/-- The template `none`: `return !any(m);`, where `any` is the overload the mask type selects. -/
def none {M : Type} (any : M → Bool) (m : M) : Bool := !any m

/-! ## all -/

/-- The fallback loop of `all`, over the lane indices still to visit:
`for (...) { if (!a[i]) return false; } return true;`. -/
def all_scan {B : Type} {W : Nat} (toBool : B → Bool) (a : pack B W) : List (Fin W) → Bool
  | [] => true
  | i :: rest => if !toBool (a i) then false else all_scan toBool a rest

/-- The 1-wide `all` (both the `vboolf1` and the `vboold1` overload): `return any(a);`. -/
def all1 {B : Type} (toBool : B → Bool) (a : pack B 1) : Bool := any1 toBool a

/-- The 4-wide `all`, `#else` branch. -/
def all4_fallback {B : Type} (toBool : B → Bool) (a : pack B 4) : Bool :=
  all_scan toBool a (lanes 4)

/-- The 4-wide `all`, `__SSE__` branch: `_mm_movemask_ps(a) == 0xf`. -/
def all4_sse (a : pack Nat 4) : Bool := _mm_movemask_ps a == 0xf

/-- The 8-wide `all`, `#else` branch. -/
def all8_fallback {B : Type} (toBool : B → Bool) (a : pack B 8) : Bool :=
  all_scan toBool a (lanes 8)

/-- The 8-wide `all`, `__AVX__` branch: `_mm256_movemask_ps(a) == (unsigned int)0xff`. -/
def all8_avx (a : pack Nat 8) : Bool := _mm256_movemask_ps a == 0xff

/-- The 16-wide `all`, `#else` branch. -/
def all16_fallback {B : Type} (toBool : B → Bool) (a : pack B 16) : Bool :=
  all_scan toBool a (lanes 16)

/-- The 16-wide `all`, `__AVX512F__` branch, on the 16-bit mask register the mask converts to:
`_mm512_kortestc(a, a) != 0`. -/
def all16_avx512 (a : Nat) : Bool := _mm512_kortestc a a != 0

/-! ## Intrinsics used by select -/

/-- Bitwise complement of a 32-bit lane: XOR with the all-ones pattern. -/
def not32 (v : Nat) : Nat := v ^^^ allOnes

/-- Intrinsic `_mm_and_ps`: bitwise AND of two 128-bit registers, seen lane by lane. -/
def _mm_and_ps (a b : pack Nat 4) : pack Nat 4 := fun i => a i &&& b i

/-- Intrinsic `_mm_andnot_ps`: bitwise `(NOT a) AND b`. -/
def _mm_andnot_ps (a b : pack Nat 4) : pack Nat 4 := fun i => not32 (a i) &&& b i

/-- Intrinsic `_mm_or_ps`: bitwise OR. -/
def _mm_or_ps (a b : pack Nat 4) : pack Nat 4 := fun i => a i ||| b i

/-- Intrinsic `_mm_and_si128`: bitwise AND of two 128-bit integer registers. -/
def _mm_and_si128 (a b : pack Nat 4) : pack Nat 4 := fun i => a i &&& b i

/-- Intrinsic `_mm_andnot_si128`: bitwise `(NOT a) AND b`. -/
def _mm_andnot_si128 (a b : pack Nat 4) : pack Nat 4 := fun i => not32 (a i) &&& b i

/-- Intrinsic `_mm_or_si128`: bitwise OR. -/
def _mm_or_si128 (a b : pack Nat 4) : pack Nat 4 := fun i => a i ||| b i

/-- Intrinsic `_mm_blendv_ps`: lane `i` of the result is `b[i]` when the sign bit of `mask[i]` is
set and `a[i]` otherwise. -/
def _mm_blendv_ps (a b mask : pack Nat 4) : pack Nat 4 :=
  fun i => if signBit (mask i) then b i else a i

/-- Intrinsic `_mm_castsi128_ps`: reinterprets the 128 bits, changing none. -/
def _mm_castsi128_ps (a : pack Nat 4) : pack Nat 4 := a

/-- Intrinsic `_mm_castps_si128`: reinterprets the 128 bits, changing none. -/
def _mm_castps_si128 (a : pack Nat 4) : pack Nat 4 := a

/-- Intrinsic `_mm256_blendv_ps`: lane `i` of the result is `b[i]` when the sign bit of `mask[i]`
is set and `a[i]` otherwise. -/
def _mm256_blendv_ps (a b mask : pack Nat 8) : pack Nat 8 :=
  fun i => if signBit (mask i) then b i else a i

/-- Intrinsic `_mm256_castsi256_ps`: reinterprets the 256 bits, changing none. -/
def _mm256_castsi256_ps (a : pack Nat 8) : pack Nat 8 := a

/-- Intrinsic `_mm256_castps_si256`: reinterprets the 256 bits, changing none. -/
def _mm256_castps_si256 (a : pack Nat 8) : pack Nat 8 := a

/-- Intrinsic `_mm512_mask_blend_ps`: lane `i` of the result is `b[i]` when bit `i` of the mask
register `k` is set and `a[i]` otherwise. -/
def _mm512_mask_blend_ps (k : Nat) (a b : pack Nat 16) : pack Nat 16 :=
  fun i => if k.testBit i then b i else a i

/-- Intrinsic `_mm512_mask_or_epi32`: lane `i` of the result is `a[i] OR b[i]` when bit `i` of
the mask register `k` is set and `src[i]` otherwise. -/
def _mm512_mask_or_epi32 (src : pack Nat 16) (k : Nat) (a b : pack Nat 16) : pack Nat 16 :=
  fun i => if k.testBit i then a i ||| b i else src i

/-! ## select -/

/-- The fallback loop of `select`, over the lane indices still to visit:
`for (...) result[i] = m[i] ? t[i] : f[i];` followed by `return result;`. -/
def select_loop {B T : Type} {W : Nat} (toBool : B → Bool) (m : pack B W) (t f : pack T W) :
    List (Fin W) → pack T W → pack T W
  | [], result => result
  | i :: rest, result =>
    select_loop toBool m t f rest (Function.update result i (if toBool (m i) then t i else f i))

/-- The 1-wide `select`: `return pack<T, 1>(m[0] ? t[0] : f[0]);`. -/
def select1 {B T : Type} (toBool : B → Bool) (m : pack B 1) (t f : pack T 1) : pack T 1 :=
  fun _ => if toBool (m 0) then t 0 else f 0

/-- The 4-wide float `select`, `#else` branch. The argument `result` is the local `result` as
its declaration leaves it, before the loop has assigned any lane. -/
def select_vfloat4_fallback {B T : Type} (toBool : B → Bool) (result : pack T 4)
    (m : pack B 4) (t f : pack T 4) : pack T 4 :=
  select_loop toBool m t f (lanes 4) result

/-- The 4-wide float `select`, `__SSE4_1__` branch: `_mm_blendv_ps(f, t, m)`. -/
def select_vfloat4_sse41 (m t f : pack Nat 4) : pack Nat 4 := _mm_blendv_ps f t m

/-- The 4-wide float `select`, `__SSE__` branch:
`_mm_or_ps(_mm_and_ps(m, t), _mm_andnot_ps(m, f))`. -/
def select_vfloat4_sse (m t f : pack Nat 4) : pack Nat 4 :=
  _mm_or_ps (_mm_and_ps m t) (_mm_andnot_ps m f)

/-- The 4-wide integer `select`, `#else` branch. -/
def select_vint4_fallback {B T : Type} (toBool : B → Bool) (result : pack T 4)
    (m : pack B 4) (t f : pack T 4) : pack T 4 :=
  select_loop toBool m t f (lanes 4) result

/-- The 4-wide integer `select`, `__SSE4_1__` branch:
`_mm_castps_si128(_mm_blendv_ps(_mm_castsi128_ps(f), _mm_castsi128_ps(t), m))`. -/
def select_vint4_sse41 (m t f : pack Nat 4) : pack Nat 4 :=
  _mm_castps_si128 (_mm_blendv_ps (_mm_castsi128_ps f) (_mm_castsi128_ps t) m)

/-- The 4-wide integer `select`, `__SSE__` branch:
`_mm_or_si128(_mm_and_si128(m, t), _mm_andnot_si128(m, f))`. -/
def select_vint4_sse (m t f : pack Nat 4) : pack Nat 4 :=
  _mm_or_si128 (_mm_and_si128 m t) (_mm_andnot_si128 m f)

/-- The 8-wide float `select`, `#else` branch. -/
def select_vfloat8_fallback {B T : Type} (toBool : B → Bool) (result : pack T 8)
    (m : pack B 8) (t f : pack T 8) : pack T 8 :=
  select_loop toBool m t f (lanes 8) result

/-- The 8-wide float `select`, `__AVX__` branch: `_mm256_blendv_ps(f, t, m)`. -/
def select_vfloat8_avx (m t f : pack Nat 8) : pack Nat 8 := _mm256_blendv_ps f t m

/-- The 8-wide integer `select`, `#else` branch. -/
def select_vint8_fallback {B T : Type} (toBool : B → Bool) (result : pack T 8)
    (m : pack B 8) (t f : pack T 8) : pack T 8 :=
  select_loop toBool m t f (lanes 8) result

/-- The 8-wide integer `select`, `__AVX__` branch:
`_mm256_castps_si256(_mm256_blendv_ps(_mm256_castsi256_ps(f), _mm256_castsi256_ps(t), m))`. -/
def select_vint8_avx (m t f : pack Nat 8) : pack Nat 8 :=
  _mm256_castps_si256 (_mm256_blendv_ps (_mm256_castsi256_ps f) (_mm256_castsi256_ps t) m)

/-- The 16-wide float `select`, `#else` branch. -/
def select_vfloat16_fallback {B T : Type} (toBool : B → Bool) (result : pack T 16)
    (m : pack B 16) (t f : pack T 16) : pack T 16 :=
  select_loop toBool m t f (lanes 16) result

/-- The 16-wide float `select`, `__AVX512F__` branch, on the mask register the mask converts to:
`_mm512_mask_blend_ps(m, f, t)`. -/
def select_vfloat16_avx512 (m : Nat) (t f : pack Nat 16) : pack Nat 16 :=
  _mm512_mask_blend_ps m f t

/-- The 16-wide integer `select`, `#else` branch. -/
def select_vint16_fallback {B T : Type} (toBool : B → Bool) (result : pack T 16)
    (m : pack B 16) (t f : pack T 16) : pack T 16 :=
  select_loop toBool m t f (lanes 16) result

/-- The 16-wide integer `select`, `__AVX512F__` branch, on the mask register the mask converts
to: `_mm512_mask_or_epi32(f, m, t, t)`. -/
def select_vint16_avx512 (m : Nat) (t f : pack Nat 16) : pack Nat 16 :=
  _mm512_mask_or_epi32 f m t t

/-! ## foreach and foreach_active -/

/-- The loop of `foreach`, over the lane indices still to visit: `for (...) fcn(p[i], i);`.
The callable is any callable: `fcn i w` is the call `fcn(p[i], i)` made in the world `w`, in
which it is handed a reference to lane `i` of the pack and the index `i`. A world is the pack,
every lane of which the callable may read and write, and the state `σ` of whatever else it can
reach. The loop reads `p[i]` in the world the earlier calls have left. -/
def foreach_loop {T σ : Type} {W : Nat} (fcn : Fin W → pack T W × σ → pack T W × σ) :
    List (Fin W) → pack T W × σ → pack T W × σ
  | [], w => w
  | i :: rest, w => foreach_loop fcn rest (fcn i w)

/-- The template `foreach(p, fcn)`: returns the world the call leaves, the pack first. -/
def foreach {T σ : Type} {W : Nat} (p : pack T W)
    (fcn : Fin W → pack T W × σ → pack T W × σ) (s : σ) : pack T W × σ :=
  foreach_loop fcn (lanes W) (p, s)

/-- The loop of `foreach_active(m, fcn)`, over the lane indices still to visit:
`for (...) if (m[i]) fcn(i);`. Here `fcn i w` is the call `fcn(i)` made in the world `w`. A
world is the mask, which the loop reads through a reference at every iteration and which the
callable may therefore have changed, and the state `σ` of whatever else the callable can
reach. -/
def foreach_active_loop {B σ : Type} {W : Nat} (toBool : B → Bool)
    (fcn : Fin W → pack B W × σ → pack B W × σ) :
    List (Fin W) → pack B W × σ → pack B W × σ
  | [], w => w
  | i :: rest, w =>
    if toBool (w.1 i) then foreach_active_loop toBool fcn rest (fcn i w)
    else foreach_active_loop toBool fcn rest w

/-- The template `foreach_active(m, fcn)`: returns the world the call leaves, the mask
first. -/
def foreach_active {B σ : Type} {W : Nat} (toBool : B → Bool) (m : pack B W)
    (fcn : Fin W → pack B W × σ → pack B W × σ) (s : σ) : pack B W × σ :=
  foreach_active_loop toBool fcn (lanes W) (m, s)

/-- The loop of `foreach_active(m, p, fcn)`, over the lane indices still to visit:
`for (...) if (m[i]) fcn(p[i]);`. Here `fcn i w` is the call `fcn(p[i])` made in the world `w`,
in which the callable is handed a reference to lane `i` of the pack. A world is the mask, the
pack and the state `σ`; the callable may read and write all three, and the loop reads `m[i]`
and `p[i]` in the world the earlier calls have left. -/
def foreach_active_pack_loop {B T σ : Type} {W : Nat} (toBool : B → Bool)
    (fcn : Fin W → pack B W × pack T W × σ → pack B W × pack T W × σ) :
    List (Fin W) → pack B W × pack T W × σ → pack B W × pack T W × σ
  | [], w => w
  | i :: rest, w =>
    if toBool (w.1 i) then foreach_active_pack_loop toBool fcn rest (fcn i w)
    else foreach_active_pack_loop toBool fcn rest w

/-- The template `foreach_active(m, p, fcn)`: returns the world the call leaves: the mask, the
pack and the state. -/
def foreach_active_pack {B T σ : Type} {W : Nat} (toBool : B → Bool) (m : pack B W)
    (p : pack T W) (fcn : Fin W → pack B W × pack T W × σ → pack B W × pack T W × σ)
    (s : σ) : pack B W × pack T W × σ :=
  foreach_active_pack_loop toBool fcn (lanes W) (m, p, s)

/-- The lanes of a mask that are true, in increasing order. -/
def activeLanes {B : Type} {W : Nat} (toBool : B → Bool) (m : pack B W) : List (Fin W) :=
  (lanes W).filter (fun i => toBool (m i))

/-- The lanes a loop over `0, ..., W - 1` has visited when it reaches lane `i`. -/
def lanesBefore {W : Nat} (i : Fin W) : List (Fin W) := (lanes W).filter (fun j => j < i)

/-- A callable of `foreach` that touches nothing of the pack but the lane it is handed: from
the value `x` of that lane, the index `i` and its state `s` it computes `f x i s`, the new
value of the lane and its new state. -/
def foreach_lane_fcn {T σ : Type} {W : Nat} (f : T → Fin W → σ → T × σ) :
    Fin W → pack T W × σ → pack T W × σ :=
  fun i w => (Function.update w.1 i (f (w.1 i) i w.2).1, (f (w.1 i) i w.2).2)

/-- A callable of `foreach_active(m, fcn)` that leaves the mask alone: from the index `i` and
its state `s` it computes its new state `f i s`. -/
def foreach_active_index_fcn {B σ : Type} {W : Nat} (f : Fin W → σ → σ) :
    Fin W → pack B W × σ → pack B W × σ :=
  fun i w => (w.1, f i w.2)

/-- A callable of `foreach_active(m, p, fcn)` that leaves the mask alone and touches nothing of
the pack but the lane it is handed: from the value `x` of that lane and its state `s` it
computes `f x s`, the new value of the lane and its new state. -/
def foreach_active_lane_fcn {B T σ : Type} {W : Nat} (f : T → σ → T × σ) :
    Fin W → pack B W × pack T W × σ → pack B W × pack T W × σ :=
  fun i w => (w.1, Function.update w.2.1 i (f (w.2.1 i) w.2.2).1, (f (w.2.1 i) w.2.2).2)

/-! ## Evaluation on small inputs -/

example : any4_fallback (fun v => v != 0) ![0, 0, allOnes, 0] = true := by decide
example : any4_sse ![0, 0, allOnes, 0] = true := by decide
example : all8_avx (fun _ => allOnes) = true := by decide
example : any8_avx (fun _ => 0) = false := by decide
example : any16_avx512 5 = true := by decide
example : all16_avx512 0xFFFF = true := by decide
example : all16_fallback (fun v => v != 0) (fun i => if i = 3 then 0 else allOnes) = false := by
  decide
example : select_vint4_fallback (fun v => v != 0) (fun _ => 7) ![allOnes, 0, allOnes, 0]
    ![1, 2, 3, 4] ![10, 20, 30, 40] = ![1, 20, 3, 40] := by decide
example : select_vint4_sse ![allOnes, 0, allOnes, 0] ![1, 2, 3, 4] ![10, 20, 30, 40]
    = ![1, 20, 3, 40] := by decide
example : select_vint4_sse41 ![allOnes, 0, allOnes, 0] ![1, 2, 3, 4] ![10, 20, 30, 40]
    = ![1, 20, 3, 40] := by decide
example : ∀ i, select_vint16_avx512 5 (fun _ => 1) (fun _ => 2) i
    = if i = 0 ∨ i = 2 then 1 else 2 := by
  decide

example : (foreach_active (fun v => v != 0) ![allOnes, 0, allOnes, 0]
    (foreach_active_index_fcn (fun i log => log ++ [i])) []).2 = [0, 2] := by decide
example : (foreach_active (fun v => v != 0) ![allOnes, 0, allOnes, 0]
    (fun i w => (if i = 0 then Function.update w.1 2 0 else w.1, w.2 ++ [i])) []).2 = [0] := by
  decide
example : (foreach_active_pack (fun v => v != 0) ![allOnes, 0, allOnes, 0] ![1, 2, 3, 4]
    (foreach_active_lane_fcn (fun x (n : Nat) => (x + 10, n + 1))) 0).2.2 = 2 := by decide
example : ∀ i, (foreach_active_pack (fun v => v != 0) ![allOnes, 0, allOnes, 0] ![1, 2, 3, 4]
    (foreach_active_lane_fcn (fun x (n : Nat) => (x + 10, n + 1))) 0).2.1 i
      = ![11, 2, 13, 4] i := by decide
example : ∀ i, (foreach_active_pack (fun v => v != 0) ![allOnes, 0, allOnes, 0] ![1, 2, 3, 4]
    (fun i (w : pack Nat 4 × pack Nat 4 × Unit) =>
      (w.1, Function.update (Function.update w.2.1 i (w.2.1 i + 10)) 1 99, w.2.2)) ()).2.1 i
      = ![11, 99, 13, 4] i := by decide
example : ∀ i, (foreach ![1, 2, 3, 4]
    (foreach_lane_fcn (fun x j (n : Nat) => (x + j.val, n + 1))) 0).1 i
      = ![1, 3, 5, 7] i := by decide
example : ∀ i, (foreach ![1, 2, 3, 4]
    (fun i (w : pack Nat 4 × Unit) =>
      (if i = 0 then Function.update (Function.update w.1 i (w.1 i + 1)) 3 100
        else Function.update w.1 i (w.1 i + 1), w.2)) ()).1 i
      = ![2, 3, 4, 101] i := by decide

/-! ## The fallback loops -/

theorem mem_lanes {W : Nat} (i : Fin W) : i ∈ lanes W := List.mem_finRange i

theorem any_scan_iff {B : Type} {W : Nat} (toBool : B → Bool) (a : pack B W)
    (l : List (Fin W)) : any_scan toBool a l = true ↔ ∃ i ∈ l, toBool (a i) = true := by
  induction l with
  | nil => simp [any_scan]
  | cons j rest ih =>
    by_cases hj : toBool (a j) = true
    · simp [any_scan, hj]
    · simp [any_scan, hj, ih]

theorem all_scan_iff {B : Type} {W : Nat} (toBool : B → Bool) (a : pack B W)
    (l : List (Fin W)) : all_scan toBool a l = true ↔ ∀ i ∈ l, toBool (a i) = true := by
  induction l with
  | nil => simp [all_scan]
  | cons j rest ih =>
    by_cases hj : toBool (a j) = true
    · simp [all_scan, hj, ih]
    · simp [all_scan, hj]

theorem any_lanes_iff {B : Type} {W : Nat} (toBool : B → Bool) (a : pack B W) :
    any_scan toBool a (lanes W) = true ↔ ∃ i, toBool (a i) = true := by
  rw [any_scan_iff]
  exact ⟨fun ⟨i, _, h⟩ => ⟨i, h⟩, fun ⟨i, h⟩ => ⟨i, mem_lanes i, h⟩⟩

theorem all_lanes_iff {B : Type} {W : Nat} (toBool : B → Bool) (a : pack B W) :
    all_scan toBool a (lanes W) = true ↔ ∀ i, toBool (a i) = true := by
  rw [all_scan_iff]
  exact ⟨fun h i => h i (mem_lanes i), fun h i _ => h i⟩

theorem select_loop_lane {B T : Type} {W : Nat} (toBool : B → Bool) (m : pack B W)
    (t f : pack T W) (l : List (Fin W)) (result : pack T W) (i : Fin W) :
    select_loop toBool m t f l result i
      = if i ∈ l then (if toBool (m i) then t i else f i) else result i := by
  induction l generalizing result with
  | nil => simp [select_loop]
  | cons j rest ih =>
    rw [select_loop, ih]
    by_cases hr : i ∈ rest
    · simp [hr]
    · by_cases hij : i = j
      · subst hij
        simp [hr]
      · simp [hr, hij, Function.update_noteq hij]

theorem select_lanes_lane {B T : Type} {W : Nat} (toBool : B → Bool) (m : pack B W)
    (t f : pack T W) (result : pack T W) (i : Fin W) :
    select_loop toBool m t f (lanes W) result i = if toBool (m i) then t i else f i := by
  rw [select_loop_lane, if_pos (mem_lanes i)]

/-! ## The sign-bit field and the mask register -/

theorem any_scan_congr {B : Type} {W : Nat} (p q : B → Bool) (a : pack B W)
    (h : ∀ i, p (a i) = q (a i)) (l : List (Fin W)) : any_scan p a l = any_scan q a l := by
  induction l with
  | nil => rfl
  | cons j rest ih => simp [any_scan, h j, ih]

theorem all_scan_congr {B : Type} {W : Nat} (p q : B → Bool) (a : pack B W)
    (h : ∀ i, p (a i) = q (a i)) (l : List (Fin W)) : all_scan p a l = all_scan q a l := by
  induction l with
  | nil => rfl
  | cons j rest ih => simp [all_scan, h j, ih]

theorem signField_eq_zero_iff (l : List Nat) :
    signField l = 0 ↔ ∀ v ∈ l, signBit v = false := by
  induction l with
  | nil => simp [signField]
  | cons v vs ih =>
    cases hv : signBit v
    · simp [signField, hv, ih]
    · simp [signField, hv]

theorem signField_lt (l : List Nat) : signField l < 2 ^ l.length := by
  induction l with
  | nil => simp [signField]
  | cons v vs ih =>
    have h2 : 2 ^ (v :: vs).length = 2 * 2 ^ vs.length := by
      rw [List.length_cons, Nat.pow_succ, Nat.mul_comm]
    rw [h2, signField]
    split <;> omega

theorem signField_eq_full_iff (l : List Nat) :
    signField l = 2 ^ l.length - 1 ↔ ∀ v ∈ l, signBit v = true := by
  induction l with
  | nil => simp [signField]
  | cons v vs ih =>
    have h2 : 2 ^ (v :: vs).length = 2 * 2 ^ vs.length := by
      rw [List.length_cons, Nat.pow_succ, Nat.mul_comm]
    have hlt := signField_lt vs
    have hpos : 0 < 2 ^ vs.length := Nat.two_pow_pos vs.length
    rw [h2, signField]
    cases hv : signBit v
    · simp only [List.mem_cons, forall_eq_or_imp, hv]
      constructor
      · intro h
        simp only [Bool.false_eq_true, if_false] at h
        omega
      · intro h
        exact absurd h.1 (by simp)
    · simp only [List.mem_cons, forall_eq_or_imp, hv, true_and, if_true]
      rw [← ih]
      omega

theorem signField_map_eq_zero_iff {W : Nat} (a : pack Nat W) :
    signField ((lanes W).map a) = 0 ↔ ∀ i, signBit (a i) = false := by
  rw [signField_eq_zero_iff]
  constructor
  · intro h i
    exact h (a i) (List.mem_map.2 ⟨i, mem_lanes i, rfl⟩)
  · intro h v hv
    obtain ⟨i, _, rfl⟩ := List.mem_map.1 hv
    exact h i

theorem signField_map_eq_full_iff {W : Nat} (a : pack Nat W) :
    signField ((lanes W).map a) = 2 ^ W - 1 ↔ ∀ i, signBit (a i) = true := by
  have hlen : ((lanes W).map a).length = W := by simp [lanes]
  have h := signField_eq_full_iff ((lanes W).map a)
  rw [hlen] at h
  rw [h]
  constructor
  · intro h i
    exact h (a i) (List.mem_map.2 ⟨i, mem_lanes i, rfl⟩)
  · intro h v hv
    obtain ⟨i, _, rfl⟩ := List.mem_map.1 hv
    exact h i

theorem any4_sse_eq_scan (a : pack Nat 4) : any4_sse a = any_scan signBit a (lanes 4) := by
  rw [Bool.eq_iff_iff, any_lanes_iff]
  simp only [any4_sse, _mm_movemask_ps, bne_iff_ne, ne_eq, signField_map_eq_zero_iff]
  simp

theorem all4_sse_eq_scan (a : pack Nat 4) : all4_sse a = all_scan signBit a (lanes 4) := by
  rw [Bool.eq_iff_iff, all_lanes_iff]
  simp only [all4_sse, _mm_movemask_ps, beq_iff_eq]
  exact signField_map_eq_full_iff a

theorem any8_avx_eq_scan (a : pack Nat 8) : any8_avx a = any_scan signBit a (lanes 8) := by
  rw [Bool.eq_iff_iff, any_lanes_iff]
  simp only [any8_avx, _mm256_testz_ps, Nat.and_self]
  by_cases h : ∃ i, signBit (a i) = true
  · have : ((lanes 8).all fun i => !signBit (a i)) = false := by
      rw [List.all_eq_false]
      obtain ⟨i, hi⟩ := h
      exact ⟨i, mem_lanes i, by simp [hi]⟩
    simp [this, h]
  · have : ((lanes 8).all fun i => !signBit (a i)) = true := by
      rw [List.all_eq_true]
      intro i _
      have := fun hi => h ⟨i, hi⟩
      simpa using this
    simp [this, h]

theorem all8_avx_eq_scan (a : pack Nat 8) : all8_avx a = all_scan signBit a (lanes 8) := by
  rw [Bool.eq_iff_iff, all_lanes_iff]
  simp only [all8_avx, _mm256_movemask_ps, beq_iff_eq]
  exact signField_map_eq_full_iff a

theorem signBit_allOnes : signBit allOnes = true := by decide

theorem signBit_allZeros : signBit allZeros = false := by decide

theorem toBool_eq_signBit {W : Nat} (toBool : Nat → Bool) (hT : toBool allOnes = true)
    (hF : toBool allZeros = false) (m : pack Nat W) (hm : canonical m) (i : Fin W) :
    toBool (m i) = signBit (m i) := by
  rcases hm i with h | h
  · rw [h, hT, signBit_allOnes]
  · rw [h, hF, signBit_allZeros]

theorem mod16_eq_zero_iff (k : Nat) :
    k % 2 ^ 16 = 0 ↔ ∀ i : Fin 16, k.testBit i = false := by
  constructor
  · intro h i
    have := Nat.testBit_mod_two_pow k 16 i
    rw [h] at this
    simpa using this.symm
  · intro h
    apply Nat.eq_of_testBit_eq
    intro j
    rw [Nat.testBit_mod_two_pow]
    by_cases hj : j < 16
    · simpa [hj] using h ⟨j, hj⟩
    · simp [hj]

theorem mod16_eq_full_iff (k : Nat) :
    k % 2 ^ 16 = 0xFFFF ↔ ∀ i : Fin 16, k.testBit i = true := by
  have hfull : (0xFFFF : Nat) = 2 ^ 16 - 1 := by decide
  constructor
  · intro h i
    have := Nat.testBit_mod_two_pow k 16 i
    rw [h, hfull, Nat.testBit_two_pow_sub_one] at this
    simpa using this.symm
  · intro h
    apply Nat.eq_of_testBit_eq
    intro j
    rw [Nat.testBit_mod_two_pow, hfull, Nat.testBit_two_pow_sub_one]
    by_cases hj : j < 16
    · simpa [hj] using h ⟨j, hj⟩
    · simp [hj]

theorem any16_avx512_iff (k : Nat) :
    any16_avx512 k = true ↔ ∃ i : Fin 16, k.testBit i = true := by
  simp only [any16_avx512, _mm512_kortestz, Nat.or_self]
  by_cases h : k % 2 ^ 16 = 0
  · have h2 := (mod16_eq_zero_iff k).1 h
    simp only [h, if_true]
    simp [h2]
  · have h2 : ¬ ∀ i : Fin 16, k.testBit i = false := fun h3 => h ((mod16_eq_zero_iff k).2 h3)
    simp only [h, if_false]
    simpa using h2

theorem all16_avx512_iff (k : Nat) :
    all16_avx512 k = true ↔ ∀ i : Fin 16, k.testBit i = true := by
  simp only [all16_avx512, _mm512_kortestc, Nat.or_self]
  by_cases h : k % 2 ^ 16 = 0xFFFF
  · have h2 := (mod16_eq_full_iff k).1 h
    simp only [h, if_true]
    simp [h2]
  · have h2 : ¬ ∀ i : Fin 16, k.testBit i = true := fun h3 => h ((mod16_eq_full_iff k).2 h3)
    simp only [h, if_false]
    simpa using h2

/-! ## Lanes of the hardware selects -/

theorem allOnes_and (x : Nat) (h : x < 2 ^ 32) : allOnes &&& x = x := by
  have h1 : allOnes = 2 ^ 32 - 1 := by decide
  rw [Nat.and_comm, h1, Nat.and_pow_two_sub_one_eq_mod, Nat.mod_eq_of_lt h]

theorem synth_lane_true (t f : Nat) (ht : t < 2 ^ 32) :
    (allOnes &&& t) ||| (not32 allOnes &&& f) = t := by
  rw [allOnes_and t ht, not32, Nat.xor_self, Nat.zero_and, Nat.or_zero]

theorem synth_lane_false (t f : Nat) (hf : f < 2 ^ 32) :
    (allZeros &&& t) ||| (not32 allZeros &&& f) = f := by
  rw [not32, allZeros, Nat.zero_and, Nat.zero_xor, allOnes_and f hf, Nat.zero_or]

theorem synth_lane_same (m x : Nat) (hx : x < 2 ^ 32) : (m &&& x) ||| (not32 m &&& x) = x := by
  have h1 : allOnes = 2 ^ 32 - 1 := by decide
  apply Nat.eq_of_testBit_eq
  intro j
  rw [Nat.testBit_or, Nat.testBit_and, Nat.testBit_and, not32, Nat.testBit_xor, h1,
    Nat.testBit_two_pow_sub_one]
  by_cases hj : j < 32
  · cases m.testBit j <;> cases x.testBit j <;> simp [hj]
  · have hxj : x.testBit j = false :=
      Nat.testBit_lt_two_pow (Nat.lt_of_lt_of_le hx (Nat.pow_le_pow_right (by decide) (by omega)))
    simp [hxj]

theorem synth_lane (toBool : Nat → Bool) (hT : toBool allOnes = true)
    (hF : toBool allZeros = false) (m t f : Nat) (hm : m = allOnes ∨ m = allZeros)
    (ht : t < 2 ^ 32) (hf : f < 2 ^ 32) :
    (m &&& t) ||| (not32 m &&& f) = if toBool m then t else f := by
  rcases hm with h | h
  · rw [h, hT, synth_lane_true t f ht]
    rfl
  · rw [h, hF, synth_lane_false t f hf]
    rfl

/-! ## Claims about the fallback paths -/

/-- C1: on the path compiled when no instruction set is enabled, `any` of a mask of width 1, 4,
8 or 16 is true exactly when some lane of the mask is true. -/
theorem any_fallback_iff_exists {B : Type} (toBool : B → Bool) :
    (∀ a : pack B 1, any1 toBool a = true ↔ ∃ i : Fin 1, toBool (a i) = true) ∧
    (∀ a : pack B 4, any4_fallback toBool a = true ↔ ∃ i : Fin 4, toBool (a i) = true) ∧
    (∀ a : pack B 8, any8_fallback toBool a = true ↔ ∃ i : Fin 8, toBool (a i) = true) ∧
    (∀ a : pack B 16, any16_fallback toBool a = true ↔ ∃ i : Fin 16, toBool (a i) = true) := by
  refine ⟨fun a => ?_, fun a => any_lanes_iff toBool a, fun a => any_lanes_iff toBool a,
    fun a => any_lanes_iff toBool a⟩
  constructor
  · intro h
    exact ⟨0, h⟩
  · rintro ⟨i, h⟩
    have hi : i = 0 := Subsingleton.elim i 0
    rw [hi] at h
    exact h

/-- C2: on the path compiled when no instruction set is enabled, `all` of a mask of width 1, 4,
8 or 16 is true exactly when every lane of the mask is true; at width 1 `all` is the call of
`any`. -/
theorem all_fallback_iff_forall {B : Type} (toBool : B → Bool) :
    (∀ a : pack B 1, all1 toBool a = any1 toBool a ∧
      (all1 toBool a = true ↔ ∀ i : Fin 1, toBool (a i) = true)) ∧
    (∀ a : pack B 4, all4_fallback toBool a = true ↔ ∀ i : Fin 4, toBool (a i) = true) ∧
    (∀ a : pack B 8, all8_fallback toBool a = true ↔ ∀ i : Fin 8, toBool (a i) = true) ∧
    (∀ a : pack B 16, all16_fallback toBool a = true ↔ ∀ i : Fin 16, toBool (a i) = true) := by
  refine ⟨fun a => ⟨rfl, ?_⟩, fun a => all_lanes_iff toBool a, fun a => all_lanes_iff toBool a,
    fun a => all_lanes_iff toBool a⟩
  constructor
  · intro h i
    have hi : i = 0 := Subsingleton.elim i 0
    rw [hi]
    exact h
  · intro h
    exact h 0

/-- C3: on the path compiled when no instruction set is enabled, `select` of width 1, 4, 8 or
16, in the floating-point and in the integer overload, returns a pack of that width whose lane
`i` is `t[i]` when `m[i]` is true and `f[i]` when `m[i]` is false. -/
theorem select_fallback_lane {B T : Type} (toBool : B → Bool) :
    (∀ (m : pack B 1) (t f : pack T 1) (i : Fin 1),
      select1 toBool m t f i = if toBool (m i) then t i else f i) ∧
    (∀ (result : pack T 4) (m : pack B 4) (t f : pack T 4) (i : Fin 4),
      select_vfloat4_fallback toBool result m t f i = (if toBool (m i) then t i else f i) ∧
      select_vint4_fallback toBool result m t f i = (if toBool (m i) then t i else f i)) ∧
    (∀ (result : pack T 8) (m : pack B 8) (t f : pack T 8) (i : Fin 8),
      select_vfloat8_fallback toBool result m t f i = (if toBool (m i) then t i else f i) ∧
      select_vint8_fallback toBool result m t f i = (if toBool (m i) then t i else f i)) ∧
    (∀ (result : pack T 16) (m : pack B 16) (t f : pack T 16) (i : Fin 16),
      select_vfloat16_fallback toBool result m t f i = (if toBool (m i) then t i else f i) ∧
      select_vint16_fallback toBool result m t f i = (if toBool (m i) then t i else f i)) := by
  refine ⟨fun m t f i => ?_, fun result m t f i => ⟨?_, ?_⟩, fun result m t f i => ⟨?_, ?_⟩,
    fun result m t f i => ⟨?_, ?_⟩⟩
  · have hi : i = 0 := Subsingleton.elim i 0
    rw [hi]
    rfl
  all_goals exact select_lanes_lane toBool m t f result i

/-! ## Claims about the hardware paths -/

/-- C4: for a 4-lane mask whose lanes each hold the all-ones or the all-zeros 32-bit pattern,
the SSE branch of `any` (`movemask != 0x0`) and of `all` (`movemask == 0xf`) return what the
4-lane scans of the fallback branch return. -/
theorem any_all_sse_eq_fallback (toBool : Nat → Bool) (hT : toBool allOnes = true)
    (hF : toBool allZeros = false) (m : pack Nat 4) (hm : canonical m) :
    any4_sse m = any4_fallback toBool m ∧ all4_sse m = all4_fallback toBool m := by
  have h := toBool_eq_signBit toBool hT hF m hm
  constructor
  · rw [any4_sse_eq_scan, any4_fallback]
    exact (any_scan_congr toBool signBit m h (lanes 4)).symm
  · rw [all4_sse_eq_scan, all4_fallback]
    exact (all_scan_congr toBool signBit m h (lanes 4)).symm

theorem any_all_sse_eq_fallback_witness :
    any4_sse ![allOnes, allZeros, allOnes, allZeros]
        = any4_fallback (fun v => v != 0) ![allOnes, allZeros, allOnes, allZeros] ∧
      all4_sse ![allOnes, allZeros, allOnes, allZeros]
        = all4_fallback (fun v => v != 0) ![allOnes, allZeros, allOnes, allZeros] :=
  any_all_sse_eq_fallback (fun v => v != 0) (by decide) (by decide)
    ![allOnes, allZeros, allOnes, allZeros] (by unfold canonical; decide)

/-- C5: for an 8-lane mask whose lanes each hold the all-ones or the all-zeros 32-bit pattern,
the AVX branch of `any` (`!testz(m, m)`) and of `all` (`movemask == 0xff`) return what the
8-lane scans of the fallback branch return. -/
theorem any_all_avx_eq_fallback (toBool : Nat → Bool) (hT : toBool allOnes = true)
    (hF : toBool allZeros = false) (m : pack Nat 8) (hm : canonical m) :
    any8_avx m = any8_fallback toBool m ∧ all8_avx m = all8_fallback toBool m := by
  have h := toBool_eq_signBit toBool hT hF m hm
  constructor
  · rw [any8_avx_eq_scan, any8_fallback]
    exact (any_scan_congr toBool signBit m h (lanes 8)).symm
  · rw [all8_avx_eq_scan, all8_fallback]
    exact (all_scan_congr toBool signBit m h (lanes 8)).symm

theorem any_all_avx_eq_fallback_witness :
    any8_avx (fun i => if i = 5 then allOnes else allZeros)
        = any8_fallback (fun v => v != 0) (fun i => if i = 5 then allOnes else allZeros) ∧
      all8_avx (fun i => if i = 5 then allOnes else allZeros)
        = all8_fallback (fun v => v != 0) (fun i => if i = 5 then allOnes else allZeros) :=
  any_all_avx_eq_fallback (fun v => v != 0) (by decide) (by decide)
    (fun i => if i = 5 then allOnes else allZeros) (by unfold canonical; decide)

/-- C6: when a 16-lane mask is held in a 16-bit mask register whose bit `i` is set exactly when
lane `i` is true, the AVX512 branch of `any` (`kortestz(m, m) == 0`) and of `all`
(`kortestc(m, m) != 0`) return what the 16-lane scans of the fallback branch return. -/
theorem any_all_avx512_eq_fallback {L : Type} (toBool : L → Bool) (k : Nat) (m : pack L 16)
    (hk : ∀ i : Fin 16, k.testBit i = toBool (m i)) :
    any16_avx512 k = any16_fallback toBool m ∧ all16_avx512 k = all16_fallback toBool m := by
  constructor
  · rw [Bool.eq_iff_iff, any16_avx512_iff, any16_fallback, any_lanes_iff]
    simp only [hk]
  · rw [Bool.eq_iff_iff, all16_avx512_iff, all16_fallback, all_lanes_iff]
    simp only [hk]

theorem any_all_avx512_eq_fallback_witness :
    any16_avx512 0x8001
        = any16_fallback (fun v => v != 0)
            (fun i => if i = 0 ∨ i = 15 then allOnes else allZeros) ∧
      all16_avx512 0x8001
        = all16_fallback (fun v => v != 0)
            (fun i => if i = 0 ∨ i = 15 then allOnes else allZeros) :=
  any_all_avx512_eq_fallback (fun v => v != 0) 0x8001
    (fun i => if i = 0 ∨ i = 15 then allOnes else allZeros) (by decide)

/-- C7: for a 4-lane mask whose lanes each hold the all-ones or the all-zeros 32-bit pattern
and packs `t`, `f` of 32-bit lanes, `(m AND t) OR ((NOT m) AND f)`, which the SSE branch of
`select` computes in the float and in the integer overload, is lane for lane the bit pattern
`m[i] ? t[i] : f[i]` that the fallback branch returns. -/
theorem select4_sse_eq_fallback (toBool : Nat → Bool) (hT : toBool allOnes = true)
    (hF : toBool allZeros = false) (result m t f : pack Nat 4) (hm : canonical m)
    (ht : lanes32 t) (hf : lanes32 f) :
    (∀ i, select_vfloat4_sse m t f i = select_vfloat4_fallback toBool result m t f i) ∧
    (∀ i, select_vint4_sse m t f i = select_vint4_fallback toBool result m t f i) := by
  constructor
  · intro i
    rw [select_vfloat4_fallback, select_lanes_lane]
    exact synth_lane toBool hT hF (m i) (t i) (f i) (hm i) (ht i) (hf i)
  · intro i
    rw [select_vint4_fallback, select_lanes_lane]
    exact synth_lane toBool hT hF (m i) (t i) (f i) (hm i) (ht i) (hf i)

theorem select4_sse_eq_fallback_witness :
    (∀ i, select_vfloat4_sse ![allOnes, allZeros, allOnes, allZeros] ![1, 2, 3, 4]
        ![10, 20, 30, 40] i
      = select_vfloat4_fallback (fun v => v != 0) (fun _ => 0)
          ![allOnes, allZeros, allOnes, allZeros] ![1, 2, 3, 4] ![10, 20, 30, 40] i) ∧
    (∀ i, select_vint4_sse ![allOnes, allZeros, allOnes, allZeros] ![1, 2, 3, 4]
        ![10, 20, 30, 40] i
      = select_vint4_fallback (fun v => v != 0) (fun _ => 0)
          ![allOnes, allZeros, allOnes, allZeros] ![1, 2, 3, 4] ![10, 20, 30, 40] i) :=
  select4_sse_eq_fallback (fun v => v != 0) (by decide) (by decide) (fun _ => 0)
    ![allOnes, allZeros, allOnes, allZeros] ![1, 2, 3, 4] ![10, 20, 30, 40]
    (by unfold canonical; decide) (by unfold lanes32; decide) (by unfold lanes32; decide)

/-! ## Claims about every path -/

/-- C8: `none(m)` is the negation of `any(m)`, whichever overload of `any` the mask type
selects: the 1-wide one, and at widths 4, 8 and 16 the fallback branch as well as the SSE, AVX
and AVX512 branch. -/
theorem none_eq_not_any :
    (∀ (M : Type) (any : M → Bool) (m : M), none any m = !any m) ∧
    (∀ (L : Type) (toBool : L → Bool) (m : pack L 1),
      none (any1 toBool) m = !any1 toBool m) ∧
    (∀ (L : Type) (toBool : L → Bool) (m : pack L 4),
      none (any4_fallback toBool) m = !any4_fallback toBool m) ∧
    (∀ m : pack Nat 4, none any4_sse m = !any4_sse m) ∧
    (∀ (L : Type) (toBool : L → Bool) (m : pack L 8),
      none (any8_fallback toBool) m = !any8_fallback toBool m) ∧
    (∀ m : pack Nat 8, none any8_avx m = !any8_avx m) ∧
    (∀ (L : Type) (toBool : L → Bool) (m : pack L 16),
      none (any16_fallback toBool) m = !any16_fallback toBool m) ∧
    (∀ m : Nat, none any16_avx512 m = !any16_avx512 m) :=
  ⟨fun _ _ _ => rfl, fun _ _ _ => rfl, fun _ _ _ => rfl, fun _ => rfl, fun _ _ _ => rfl,
    fun _ => rfl, fun _ _ _ => rfl, fun _ => rfl⟩

/-- C9: at widths 1, 4, 8 and 16, `select(m, A, B)` is lane for lane `A` when every lane of `m`
is true and lane for lane `B` when every lane of `m` is false. On the fallback branches a lane
is true when its conversion to `bool` is; on the SSE, SSE4.1 and AVX branches every lane of the
mask holds the all-ones, respectively the all-zeros, pattern; on the AVX512 branches the 16 bits
of the mask register are all set, respectively all clear. -/
theorem select_identity_laws {L T : Type} (toBool : L → Bool) :
    (∀ (m : pack L 1) (A B : pack T 1),
      ((∀ i, toBool (m i) = true) → ∀ i, select1 toBool m A B i = A i) ∧
      ((∀ i, toBool (m i) = false) → ∀ i, select1 toBool m A B i = B i)) ∧
    (∀ (result : pack T 4) (m : pack L 4) (A B : pack T 4),
      ((∀ i, toBool (m i) = true) → ∀ i,
        select_vfloat4_fallback toBool result m A B i = A i ∧
        select_vint4_fallback toBool result m A B i = A i) ∧
      ((∀ i, toBool (m i) = false) → ∀ i,
        select_vfloat4_fallback toBool result m A B i = B i ∧
        select_vint4_fallback toBool result m A B i = B i)) ∧
    (∀ (result : pack T 8) (m : pack L 8) (A B : pack T 8),
      ((∀ i, toBool (m i) = true) → ∀ i,
        select_vfloat8_fallback toBool result m A B i = A i ∧
        select_vint8_fallback toBool result m A B i = A i) ∧
      ((∀ i, toBool (m i) = false) → ∀ i,
        select_vfloat8_fallback toBool result m A B i = B i ∧
        select_vint8_fallback toBool result m A B i = B i)) ∧
    (∀ (result : pack T 16) (m : pack L 16) (A B : pack T 16),
      ((∀ i, toBool (m i) = true) → ∀ i,
        select_vfloat16_fallback toBool result m A B i = A i ∧
        select_vint16_fallback toBool result m A B i = A i) ∧
      ((∀ i, toBool (m i) = false) → ∀ i,
        select_vfloat16_fallback toBool result m A B i = B i ∧
        select_vint16_fallback toBool result m A B i = B i)) ∧
    (∀ (m A B : pack Nat 4), lanes32 A → lanes32 B →
      ((∀ i, m i = allOnes) → ∀ i,
        select_vfloat4_sse m A B i = A i ∧ select_vint4_sse m A B i = A i) ∧
      ((∀ i, m i = allZeros) → ∀ i,
        select_vfloat4_sse m A B i = B i ∧ select_vint4_sse m A B i = B i)) ∧
    (∀ (m A B : pack Nat 4),
      ((∀ i, m i = allOnes) → ∀ i,
        select_vfloat4_sse41 m A B i = A i ∧ select_vint4_sse41 m A B i = A i) ∧
      ((∀ i, m i = allZeros) → ∀ i,
        select_vfloat4_sse41 m A B i = B i ∧ select_vint4_sse41 m A B i = B i)) ∧
    (∀ (m A B : pack Nat 8),
      ((∀ i, m i = allOnes) → ∀ i,
        select_vfloat8_avx m A B i = A i ∧ select_vint8_avx m A B i = A i) ∧
      ((∀ i, m i = allZeros) → ∀ i,
        select_vfloat8_avx m A B i = B i ∧ select_vint8_avx m A B i = B i)) ∧
    (∀ (k : Nat) (A B : pack Nat 16),
      ((∀ i : Fin 16, k.testBit i = true) → ∀ i,
        select_vfloat16_avx512 k A B i = A i ∧ select_vint16_avx512 k A B i = A i) ∧
      ((∀ i : Fin 16, k.testBit i = false) → ∀ i,
        select_vfloat16_avx512 k A B i = B i ∧ select_vint16_avx512 k A B i = B i)) := by
  refine ⟨fun m A B => ⟨fun h i => ?_, fun h i => ?_⟩,
    fun result m A B => ⟨fun h i => ⟨?_, ?_⟩, fun h i => ⟨?_, ?_⟩⟩,
    fun result m A B => ⟨fun h i => ⟨?_, ?_⟩, fun h i => ⟨?_, ?_⟩⟩,
    fun result m A B => ⟨fun h i => ⟨?_, ?_⟩, fun h i => ⟨?_, ?_⟩⟩,
    fun m A B hA hB => ⟨fun h i => ?_, fun h i => ?_⟩,
    fun m A B => ⟨fun h i => ?_, fun h i => ?_⟩,
    fun m A B => ⟨fun h i => ?_, fun h i => ?_⟩,
    fun k A B => ⟨fun h i => ?_, fun h i => ?_⟩⟩
  · have hi : i = 0 := Subsingleton.elim i 0
    subst hi
    simp [select1, h 0]
  · have hi : i = 0 := Subsingleton.elim i 0
    subst hi
    simp [select1, h 0]
  iterate 12
    first
      | (rw [select_vfloat4_fallback, select_lanes_lane, h i]; rfl)
      | (rw [select_vint4_fallback, select_lanes_lane, h i]; rfl)
      | (rw [select_vfloat8_fallback, select_lanes_lane, h i]; rfl)
      | (rw [select_vint8_fallback, select_lanes_lane, h i]; rfl)
      | (rw [select_vfloat16_fallback, select_lanes_lane, h i]; rfl)
      | (rw [select_vint16_fallback, select_lanes_lane, h i]; rfl)
  · simp only [select_vfloat4_sse, select_vint4_sse, _mm_or_ps, _mm_and_ps, _mm_andnot_ps,
      _mm_or_si128, _mm_and_si128, _mm_andnot_si128, h i, synth_lane_true (A i) (B i) (hA i),
      and_self]
  · simp only [select_vfloat4_sse, select_vint4_sse, _mm_or_ps, _mm_and_ps, _mm_andnot_ps,
      _mm_or_si128, _mm_and_si128, _mm_andnot_si128, h i, synth_lane_false (A i) (B i) (hB i),
      and_self]
  · simp [select_vfloat4_sse41, select_vint4_sse41, _mm_blendv_ps, _mm_castps_si128,
      _mm_castsi128_ps, h i, signBit_allOnes]
  · simp [select_vfloat4_sse41, select_vint4_sse41, _mm_blendv_ps, _mm_castps_si128,
      _mm_castsi128_ps, h i, signBit_allZeros]
  · simp [select_vfloat8_avx, select_vint8_avx, _mm256_blendv_ps, _mm256_castps_si256,
      _mm256_castsi256_ps, h i, signBit_allOnes]
  · simp [select_vfloat8_avx, select_vint8_avx, _mm256_blendv_ps, _mm256_castps_si256,
      _mm256_castsi256_ps, h i, signBit_allZeros]
  · simp [select_vfloat16_avx512, select_vint16_avx512, _mm512_mask_blend_ps,
      _mm512_mask_or_epi32, h i]
  · simp [select_vfloat16_avx512, select_vint16_avx512, _mm512_mask_blend_ps,
      _mm512_mask_or_epi32, h i]

theorem select_identity_laws_witness :
    (∀ i, select_vfloat4_sse (fun _ => allOnes) ![1, 2, 3, 4] ![10, 20, 30, 40] i
        = ![1, 2, 3, 4] i ∧
      select_vint4_sse (fun _ => allOnes) ![1, 2, 3, 4] ![10, 20, 30, 40] i
        = ![1, 2, 3, 4] i) ∧
    (∀ i, select_vfloat8_fallback (fun v : Nat => v != 0) (fun _ => 0) (fun _ => allZeros)
        (fun j => j.val) (fun j => 10 * j.val) i = 10 * i.val ∧
      select_vint8_fallback (fun v : Nat => v != 0) (fun _ => 0) (fun _ => allZeros)
        (fun j => j.val) (fun j => 10 * j.val) i = 10 * i.val) :=
  ⟨((@select_identity_laws Nat Nat (fun v : Nat => v != 0)).2.2.2.2.1
      (fun _ => allOnes) ![1, 2, 3, 4] ![10, 20, 30, 40]
      (by unfold lanes32; decide) (by unfold lanes32; decide)).1 (by decide),
    ((@select_identity_laws Nat Nat (fun v : Nat => v != 0)).2.2.1 (fun _ => 0) (fun _ => allZeros)
      (fun j => j.val) (fun j => 10 * j.val)).2 (by decide)⟩

/-- C10: at widths 1, 4, 8 and 16, for every mask `m`, canonical or not, and every pack `A`,
`select(m, A, A)` is lane for lane `A`, on the fallback branches and on the SSE, SSE4.1, AVX
and AVX512 branches; the lanes of `A` that the bitwise SSE branch reads are 32-bit patterns. -/
theorem select_same_sources {L T : Type} (toBool : L → Bool) :
    (∀ (m : pack L 1) (A : pack T 1) (i : Fin 1), select1 toBool m A A i = A i) ∧
    (∀ (result : pack T 4) (m : pack L 4) (A : pack T 4) (i : Fin 4),
      select_vfloat4_fallback toBool result m A A i = A i ∧
      select_vint4_fallback toBool result m A A i = A i) ∧
    (∀ (result : pack T 8) (m : pack L 8) (A : pack T 8) (i : Fin 8),
      select_vfloat8_fallback toBool result m A A i = A i ∧
      select_vint8_fallback toBool result m A A i = A i) ∧
    (∀ (result : pack T 16) (m : pack L 16) (A : pack T 16) (i : Fin 16),
      select_vfloat16_fallback toBool result m A A i = A i ∧
      select_vint16_fallback toBool result m A A i = A i) ∧
    (∀ (m A : pack Nat 4), lanes32 A → ∀ i : Fin 4,
      select_vfloat4_sse m A A i = A i ∧ select_vint4_sse m A A i = A i) ∧
    (∀ (m A : pack Nat 4) (i : Fin 4),
      select_vfloat4_sse41 m A A i = A i ∧ select_vint4_sse41 m A A i = A i) ∧
    (∀ (m A : pack Nat 8) (i : Fin 8),
      select_vfloat8_avx m A A i = A i ∧ select_vint8_avx m A A i = A i) ∧
    (∀ (k : Nat) (A : pack Nat 16) (i : Fin 16),
      select_vfloat16_avx512 k A A i = A i ∧ select_vint16_avx512 k A A i = A i) := by
  refine ⟨fun m A i => ?_, fun result m A i => ⟨?_, ?_⟩, fun result m A i => ⟨?_, ?_⟩,
    fun result m A i => ⟨?_, ?_⟩, fun m A hA i => ⟨?_, ?_⟩, fun m A i => ?_, fun m A i => ?_,
    fun k A i => ?_⟩
  · have hi : i = 0 := Subsingleton.elim i 0
    subst hi
    simp [select1]
  iterate 6
    first
      | (rw [select_vfloat4_fallback, select_lanes_lane, ite_self])
      | (rw [select_vint4_fallback, select_lanes_lane, ite_self])
      | (rw [select_vfloat8_fallback, select_lanes_lane, ite_self])
      | (rw [select_vint8_fallback, select_lanes_lane, ite_self])
      | (rw [select_vfloat16_fallback, select_lanes_lane, ite_self])
      | (rw [select_vint16_fallback, select_lanes_lane, ite_self])
  · exact synth_lane_same (m i) (A i) (hA i)
  · exact synth_lane_same (m i) (A i) (hA i)
  · simp [select_vfloat4_sse41, select_vint4_sse41, _mm_blendv_ps, _mm_castps_si128,
      _mm_castsi128_ps]
  · simp [select_vfloat8_avx, select_vint8_avx, _mm256_blendv_ps, _mm256_castps_si256,
      _mm256_castsi256_ps]
  · simp [select_vfloat16_avx512, select_vint16_avx512, _mm512_mask_blend_ps,
      _mm512_mask_or_epi32]

theorem select_same_sources_witness :
    select_vfloat4_sse ![0x00000001, allOnes, 0x80000000, allZeros] ![1, 2, 3, 4]
        ![1, 2, 3, 4] 0 = ![1, 2, 3, 4] 0 ∧
      select_vint4_sse ![0x00000001, allOnes, 0x80000000, allZeros] ![1, 2, 3, 4]
        ![1, 2, 3, 4] 0 = ![1, 2, 3, 4] 0 :=
  (@select_same_sources Nat Nat (fun v => v != 0)).2.2.2.2.1
    ![0x00000001, allOnes, 0x80000000, allZeros] ![1, 2, 3, 4] (by unfold lanes32; decide) 0

/-! ## The iteration loops -/

theorem lanes_pairwise (W : Nat) : (lanes W).Pairwise (· < ·) := List.pairwise_lt_finRange W

theorem lanes_nodup (W : Nat) : (lanes W).Nodup := List.nodup_finRange W

theorem activeLanes_pairwise {B : Type} {W : Nat} (toBool : B → Bool) (m : pack B W) :
    (activeLanes toBool m).Pairwise (· < ·) :=
  (lanes_pairwise W).filter _

theorem activeLanes_nodup {B : Type} {W : Nat} (toBool : B → Bool) (m : pack B W) :
    (activeLanes toBool m).Nodup :=
  (activeLanes_pairwise toBool m).imp (fun h => ne_of_lt h)

theorem mem_activeLanes {B : Type} {W : Nat} (toBool : B → Bool) (m : pack B W) (i : Fin W) :
    i ∈ activeLanes toBool m ↔ toBool (m i) = true := by
  simp [activeLanes, mem_lanes]

theorem activeLanes_eq_sort {B : Type} {W : Nat} (toBool : B → Bool) (m : pack B W) :
    activeLanes toBool m
      = (Finset.univ.filter (fun i => toBool (m i) = true)).sort (· ≤ ·) := by
  have hsorted : (activeLanes toBool m).Sorted (· ≤ ·) :=
    (activeLanes_pairwise toBool m).imp (fun h => le_of_lt h)
  have hset : (activeLanes toBool m).toFinset
      = Finset.univ.filter (fun i => toBool (m i) = true) := by
    ext i
    simp [mem_activeLanes]
  rw [← hset]
  exact ((List.toFinset_sort (· ≤ ·) (activeLanes_nodup toBool m)).2 hsorted).symm

theorem activeLanes_filter_lt {B : Type} {W : Nat} (toBool : B → Bool) (m : pack B W)
    (i : Fin W) :
    (activeLanes toBool m).filter (fun j => decide (j < i))
      = (lanesBefore i).filter (fun j => toBool (m j)) := by
  simp only [activeLanes, lanesBefore, List.filter_filter]
  congr 1
  funext a
  exact Bool.and_comm _ _

theorem foldl_append_singleton {α : Type} (l : List α) (log : List α) :
    l.foldl (fun log i => log ++ [i]) log = log ++ l := by
  induction l generalizing log with
  | nil => simp
  | cons j rest ih => simp [ih]

theorem foldl_append_map {α β : Type} (f : α → β) (l : List α) (log : List β) :
    l.foldl (fun log i => log ++ [f i]) log = log ++ l.map f := by
  induction l generalizing log with
  | nil => simp
  | cons j rest ih => simp [ih]

theorem foreach_loop_eq_foldl {T σ : Type} {W : Nat}
    (fcn : Fin W → pack T W × σ → pack T W × σ) (l : List (Fin W)) (w : pack T W × σ) :
    foreach_loop fcn l w = l.foldl (fun w i => fcn i w) w := by
  induction l generalizing w with
  | nil => rfl
  | cons j rest ih => rw [foreach_loop, ih, List.foldl_cons]

theorem foreach_active_loop_eq_foldl {B σ : Type} {W : Nat} (toBool : B → Bool)
    (fcn : Fin W → pack B W × σ → pack B W × σ) (hmask : ∀ i w, (fcn i w).1 = w.1)
    (l : List (Fin W)) (w : pack B W × σ) :
    foreach_active_loop toBool fcn l w
      = (l.filter (fun i => toBool (w.1 i))).foldl (fun w i => fcn i w) w := by
  induction l generalizing w with
  | nil => rfl
  | cons j rest ih =>
    by_cases hj : toBool (w.1 j) = true
    · rw [foreach_active_loop, if_pos hj, ih, hmask]
      simp [List.filter_cons, hj]
    · rw [foreach_active_loop, if_neg hj, ih]
      simp [List.filter_cons, hj]

theorem foreach_active_pack_loop_eq {B T σ : Type} {W : Nat} (toBool : B → Bool)
    (fcn : Fin W → pack B W × pack T W × σ → pack B W × pack T W × σ) (l : List (Fin W))
    (w : pack B W × pack T W × σ) :
    foreach_active_pack_loop toBool fcn l w = foreach_active_loop toBool fcn l w := by
  induction l generalizing w with
  | nil => rfl
  | cons j rest ih =>
    by_cases hj : toBool (w.1 j) = true
    · rw [foreach_active_pack_loop, foreach_active_loop, if_pos hj, if_pos hj, ih]
    · rw [foreach_active_pack_loop, foreach_active_loop, if_neg hj, if_neg hj, ih]

theorem foldl_frame {ω T : Type} {W : Nat} (proj : ω → pack T W) (step : Fin W → ω → ω)
    (h : ∀ i j w, j ≠ i → proj (step i w) j = proj w j) (l : List (Fin W)) (w : ω)
    (i : Fin W) (hi : i ∉ l) : proj (l.foldl (fun w j => step j w) w) i = proj w i := by
  induction l generalizing w with
  | nil => rfl
  | cons j rest ih =>
    rw [List.foldl_cons, ih _ (fun h2 => hi (List.mem_cons_of_mem _ h2))]
    apply h
    rintro rfl
    exact hi (List.mem_cons_self _ _)

theorem foldl_lane {ω T : Type} {W : Nat} (proj : ω → pack T W) (step : Fin W → ω → ω)
    (h : ∀ i j w, j ≠ i → proj (step i w) j = proj w j) (l : List (Fin W))
    (hl : l.Pairwise (· < ·)) (w : ω) (i : Fin W) (hi : i ∈ l) :
    proj ((l.filter (fun j => decide (j < i))).foldl (fun w j => step j w) w) i = proj w i ∧
    proj (l.foldl (fun w j => step j w) w) i
      = proj (step i ((l.filter (fun j => decide (j < i))).foldl (fun w j => step j w) w))
          i := by
  induction l generalizing w with
  | nil => simp at hi
  | cons j rest ih =>
    rw [List.pairwise_cons] at hl
    by_cases hij : i = j
    · subst hij
      have hnil : rest.filter (fun j => decide (j < i)) = [] := by
        rw [List.filter_eq_nil_iff]
        intro a ha
        have := hl.1 a ha
        simp only [decide_eq_true_eq, not_lt]
        exact le_of_lt this
      have hnot : i ∉ rest := fun h2 => lt_irrefl i (hl.1 i h2)
      have hfil : (i :: rest).filter (fun j => decide (j < i)) = [] := by
        rw [List.filter_cons_of_neg (by simp), hnil]
      rw [hfil, List.foldl_cons]
      exact ⟨rfl, foldl_frame proj step h rest _ i hnot⟩
    · have hrest : i ∈ rest := by
        rcases List.mem_cons.1 hi with h2 | h2
        · exact absurd h2 hij
        · exact h2
      have hlt : j < i := hl.1 i hrest
      have hfil : (j :: rest).filter (fun j => decide (j < i))
          = j :: rest.filter (fun j => decide (j < i)) :=
        List.filter_cons_of_pos (by simpa using hlt)
      rw [hfil, List.foldl_cons, List.foldl_cons]
      have := ih hl.2 (step j w) hrest
      rw [h j i w hij] at this
      exact this

theorem foldl_lane_fcn_pure {T σ : Type} {W : Nat} (g : T → Fin W → T)
    (h : T → Fin W → σ → σ) (l : List (Fin W)) (hl : l.Nodup) (q : pack T W) (s : σ) :
    l.foldl (fun w i => foreach_lane_fcn (fun x i s => (g x i, h x i s)) i w) (q, s)
      = (fun i => if i ∈ l then g (q i) i else q i, l.foldl (fun s i => h (q i) i s) s) := by
  induction l generalizing q s with
  | nil => simp
  | cons j rest ih =>
    rw [List.nodup_cons] at hl
    rw [List.foldl_cons, foreach_lane_fcn, ih hl.2]
    have hfold : ∀ (l : List (Fin W)) (s : σ), j ∉ l →
        l.foldl (fun s i => h (Function.update q j (g (q j) j) i) i s) s
          = l.foldl (fun s i => h (q i) i s) s := by
      intro l
      induction l with
      | nil => intro s _; rfl
      | cons a as ih2 =>
        intro s hj
        have haj : a ≠ j := fun e => hj (e ▸ List.mem_cons_self _ _)
        rw [List.foldl_cons, List.foldl_cons, Function.update_noteq haj,
          ih2 _ (fun h2 => hj (List.mem_cons_of_mem _ h2))]
    refine Prod.ext ?_ ?_
    · funext i
      by_cases hij : i = j
      · subst hij
        simp [hl.1]
      · by_cases hr : i ∈ rest
        · simp [hr, hij, Function.update_noteq hij]
        · simp [hr, hij, Function.update_noteq hij]
    · simp only [List.foldl_cons]
      exact hfold rest _ hl.1

theorem foldl_active_lane_fcn {B T σ : Type} {W : Nat} (f : T → σ → T × σ)
    (l : List (Fin W)) (m : pack B W) (ps : pack T W × σ) :
    l.foldl (fun w i => foreach_active_lane_fcn f i w) (m, ps)
      = (m, l.foldl (fun w i => foreach_lane_fcn (fun x _ s => f x s) i w) ps) := by
  induction l generalizing ps with
  | nil => rfl
  | cons j rest ih =>
    rw [List.foldl_cons, List.foldl_cons]
    exact ih _

theorem foreach_active_pack_eq_foldl {B T σ : Type} {W : Nat} (toBool : B → Bool)
    (m : pack B W) (p : pack T W)
    (fcn : Fin W → pack B W × pack T W × σ → pack B W × pack T W × σ)
    (hmask : ∀ i w, (fcn i w).1 = w.1) (s : σ) :
    foreach_active_pack toBool m p fcn s
      = (activeLanes toBool m).foldl (fun w i => fcn i w) (m, p, s) := by
  rw [foreach_active_pack, foreach_active_pack_loop_eq,
    foreach_active_loop_eq_foldl toBool fcn hmask]
  rfl

theorem foreach_active_pack_lane_fcn {B T σ : Type} {W : Nat} (toBool : B → Bool)
    (m : pack B W) (p : pack T W) (g : T → T) (h : T → σ → σ) (s : σ) :
    foreach_active_pack toBool m p (foreach_active_lane_fcn (fun x s => (g x, h x s))) s
      = (m, fun i => if toBool (m i) then g (p i) else p i,
          (activeLanes toBool m).foldl (fun s i => h (p i) s) s) := by
  rw [foreach_active_pack_eq_foldl toBool m p
      (foreach_active_lane_fcn (fun x s => (g x, h x s))) (fun _ _ => rfl) s,
    foldl_active_lane_fcn,
    foldl_lane_fcn_pure (fun x _ => g x) (fun x _ s => h x s) _ (activeLanes_nodup toBool m)]
  simp [mem_activeLanes]

/-! ## Claims about the iteration functions -/

/-- Counterexample to the call sequence of `foreach_active(m, fcn)` holding for every callable:
on the mask `[true, false, true, false]`, whose true lanes are 0 and 2, a callable that records
its argument and, when called at index 0, clears lane 2 of the mask, is called at index 0
only. -/
theorem foreach_active_calls_counterexample :
    (foreach_active (fun v : Nat => v != 0) ![allOnes, allZeros, allOnes, allZeros]
      (fun i w => (if i = 0 then Function.update w.1 2 allZeros else w.1, w.2 ++ [i]))
      []).2 = [0] ∧
    (Finset.univ.filter (fun i : Fin 4 =>
      (fun v : Nat => v != 0) (![allOnes, allZeros, allOnes, allZeros] i) = true)).sort
        (· ≤ ·) = [0, 2] := by
  refine ⟨by decide, ?_⟩
  rw [← activeLanes_eq_sort (fun v : Nat => v != 0) ![allOnes, allZeros, allOnes, allZeros]]
  decide

/-- C11: when no call of the callable changes the mask, `foreach_active(m, fcn)` calls `fcn` on
the true lanes of the mask and on no other index, once each and in increasing order: the call
leaves what the calls `fcn(i)` for `i` running through the sorted list of the true lanes leave,
and a callable that records its argument records exactly that list. -/
theorem foreach_active_calls {B σ : Type} {W : Nat} (toBool : B → Bool) (m : pack B W)
    (fcn : Fin W → pack B W × σ → pack B W × σ) (hmask : ∀ i w, (fcn i w).1 = w.1) (s : σ) :
    foreach_active toBool m fcn s
      = (activeLanes toBool m).foldl (fun w i => fcn i w) (m, s) ∧
    (∀ log : List (Fin W),
      foreach_active toBool m (foreach_active_index_fcn (fun i log => log ++ [i])) log
        = (m, log ++ activeLanes toBool m)) ∧
    (activeLanes toBool m).Pairwise (· < ·) ∧
    (∀ i, i ∈ activeLanes toBool m ↔ toBool (m i) = true) ∧
    activeLanes toBool m
      = (Finset.univ.filter (fun i => toBool (m i) = true)).sort (· ≤ ·) := by
  refine ⟨?_, fun log => ?_, activeLanes_pairwise toBool m, mem_activeLanes toBool m,
    activeLanes_eq_sort toBool m⟩
  · exact foreach_active_loop_eq_foldl toBool fcn hmask (lanes W) (m, s)
  · rw [foreach_active, foreach_active_loop_eq_foldl toBool
      (foreach_active_index_fcn (fun i log => log ++ [i])) (fun _ _ => rfl)]
    show (activeLanes toBool m).foldl
      (fun w i => foreach_active_index_fcn (fun i log => log ++ [i]) i w) (m, log)
        = (m, log ++ activeLanes toBool m)
    generalize activeLanes toBool m = l
    induction l generalizing log with
    | nil => simp
    | cons a as ih =>
      rw [List.foldl_cons, foreach_active_index_fcn, ih]
      simp

theorem foreach_active_calls_witness :
    (foreach_active (fun v : Nat => v != 0) ![allOnes, allZeros, allOnes, allZeros]
      (fun i w => (w.1, w.2 ++ [if (w.1 i) = allOnes then i.val else 99])) []).2 = [0, 2] :=
  (congrArg Prod.snd
    (foreach_active_calls (fun v : Nat => v != 0) ![allOnes, allZeros, allOnes, allZeros]
      (fun i w => (w.1, w.2 ++ [if (w.1 i) = allOnes then i.val else 99]))
      (fun _ _ => rfl) []).1).trans (by decide)

/-- Counterexample to the frame of `foreach_active(m, p, fcn)` holding for every callable: on
the mask `[true, false, true, false]` and the pack `[1, 2, 3, 4]`, a callable that adds 10 to
the lane it is handed and writes 99 to lane 1 leaves `[11, 99, 13, 4]`: lane 1, whose mask lane
is false and which held 2, holds 99. -/
theorem foreach_active_pack_effect_counterexample :
    (fun v : Nat => v != 0) (![allOnes, allZeros, allOnes, allZeros] 1) = false ∧
    (![1, 2, 3, 4] : pack Nat 4) 1 = 2 ∧
    (foreach_active_pack (fun v : Nat => v != 0) ![allOnes, allZeros, allOnes, allZeros]
      ![1, 2, 3, 4]
      (fun i (w : pack Nat 4 × pack Nat 4 × Unit) =>
        (w.1, Function.update (Function.update w.2.1 i (w.2.1 i + 10)) 1 99, w.2.2))
      ()).2.1 1 = 99 := by
  decide

/-- C12: when no call of the callable changes the mask or a lane of the pack other than the one
it is handed, then after `foreach_active(m, p, fcn)` a lane whose mask lane is false holds the
value it held before the call, and a lane whose mask lane is true holds what one call of `fcn`
left there, that call being made in the world the loop has reached at that lane, in which the
lane still holds its previous value. The calls made are those on the true lanes, once each and
in increasing order, so `fcn` is not called for a false lane; a callable that records the lane
it is handed and replaces its value `x` by `g x` records the previous values of the true lanes
and nothing else. -/
theorem foreach_active_pack_effect {B T σ : Type} {W : Nat} (toBool : B → Bool)
    (m : pack B W) (p : pack T W)
    (fcn : Fin W → pack B W × pack T W × σ → pack B W × pack T W × σ)
    (hmask : ∀ i w, (fcn i w).1 = w.1)
    (hlane : ∀ i j w, j ≠ i → (fcn i w).2.1 j = w.2.1 j) (s : σ) :
    foreach_active_pack toBool m p fcn s
      = (activeLanes toBool m).foldl (fun w i => fcn i w) (m, p, s) ∧
    (∀ i, toBool (m i) = false → (foreach_active_pack toBool m p fcn s).2.1 i = p i) ∧
    (∀ i, toBool (m i) = true →
      (foreach_active_pack_loop toBool fcn (lanesBefore i) (m, p, s)).2.1 i = p i ∧
      (foreach_active_pack toBool m p fcn s).2.1 i
        = (fcn i (foreach_active_pack_loop toBool fcn (lanesBefore i) (m, p, s))).2.1 i) ∧
    (∀ (g : T → T) (log : List T),
      foreach_active_pack toBool m p
          (foreach_active_lane_fcn (fun x log => (g x, log ++ [x]))) log
        = (m, fun i => if toBool (m i) then g (p i) else p i,
            log ++ (activeLanes toBool m).map p)) := by
  have hfold := foreach_active_pack_eq_foldl toBool m p fcn hmask s
  refine ⟨hfold, fun i hi => ?_, fun i hi => ?_, fun g log => ?_⟩
  · rw [hfold]
    exact foldl_frame (fun w => w.2.1) fcn hlane (activeLanes toBool m) (m, p, s) i
      (by simp [mem_activeLanes, hi])
  · have hbefore : foreach_active_pack_loop toBool fcn (lanesBefore i) (m, p, s)
        = ((activeLanes toBool m).filter (fun j => decide (j < i))).foldl
            (fun w j => fcn j w) (m, p, s) := by
      rw [foreach_active_pack_loop_eq, foreach_active_loop_eq_foldl toBool fcn hmask,
        activeLanes_filter_lt]
    rw [hfold, hbefore]
    exact foldl_lane (fun w => w.2.1) fcn hlane _ (activeLanes_pairwise toBool m) (m, p, s) i
      ((mem_activeLanes toBool m i).2 hi)
  · rw [foreach_active_pack_lane_fcn toBool m p g (fun x log => log ++ [x]) log,
      foldl_append_map]

theorem foreach_active_pack_effect_witness :
    (foreach_active_pack (fun v : Nat => v != 0) ![allOnes, allZeros, allOnes, allZeros]
        ![1, 2, 3, 4]
        (fun i (w : pack Nat 4 × pack Nat 4 × Nat) =>
          (w.1, Function.update w.2.1 i (w.2.1 i + 10 * w.2.2), w.2.2 + 1)) 1).2.1 1 = 2 ∧
      (foreach_active_pack (fun v : Nat => v != 0) ![allOnes, allZeros, allOnes, allZeros]
        ![1, 2, 3, 4]
        (fun i (w : pack Nat 4 × pack Nat 4 × Nat) =>
          (w.1, Function.update w.2.1 i (w.2.1 i + 10 * w.2.2), w.2.2 + 1)) 1).2.1 2 = 23 :=
  ⟨(foreach_active_pack_effect (fun v : Nat => v != 0)
      ![allOnes, allZeros, allOnes, allZeros] ![1, 2, 3, 4]
      (fun i (w : pack Nat 4 × pack Nat 4 × Nat) =>
        (w.1, Function.update w.2.1 i (w.2.1 i + 10 * w.2.2), w.2.2 + 1))
      (fun _ _ => rfl) (fun _ _ _ h => Function.update_noteq h _ _) 1).2.1 1 (by decide),
    ((foreach_active_pack_effect (fun v : Nat => v != 0)
      ![allOnes, allZeros, allOnes, allZeros] ![1, 2, 3, 4]
      (fun i (w : pack Nat 4 × pack Nat 4 × Nat) =>
        (w.1, Function.update w.2.1 i (w.2.1 i + 10 * w.2.2), w.2.2 + 1))
      (fun _ _ => rfl) (fun _ _ _ h => Function.update_noteq h _ _) 1).2.2.1 2
        (by decide)).2.trans (by decide)⟩

/-- Counterexample to the lanes `foreach(p, fcn)` leaves holding for every callable: on the
pack `[1, 2, 3, 4]`, a callable that adds 1 to the lane it is handed and, when called at index
0, also writes 100 to lane 3, leaves `[2, 3, 4, 101]`: lane 3 holds 101, while the call on the
original lane 3 with index 3 leaves 5 there. -/
theorem foreach_effect_counterexample :
    (foreach ![1, 2, 3, 4]
      (fun i (w : pack Nat 4 × Unit) =>
        (if i = 0 then Function.update (Function.update w.1 i (w.1 i + 1)) 3 100
          else Function.update w.1 i (w.1 i + 1), w.2)) ()).1 3 = 101 ∧
    ((fun i (w : pack Nat 4 × Unit) =>
        (if i = 0 then Function.update (Function.update w.1 i (w.1 i + 1)) 3 100
          else Function.update w.1 i (w.1 i + 1), w.2)) 3 (![1, 2, 3, 4], ())).1 3 = 5 := by
  decide

/-- C13: `foreach(p, fcn)` makes the `W` calls `fcn(p[i], i)` for `i = 0, 1, ..., W - 1` in
that order and none else, whatever the callable; when no call of the callable changes a lane of
the pack other than the one it is handed, every lane holds what the call on it left there, that
call being made in the world the loop has reached at that lane, in which the lane still holds
its original value; a callable that records its arguments and replaces lane `x` at index `i` by
`g x i` records the `W` pairs of an original lane and its index, in increasing index order. -/
theorem foreach_effect {T σ : Type} {W : Nat} (p : pack T W)
    (fcn : Fin W → pack T W × σ → pack T W × σ) (s : σ) :
    foreach p fcn s = (lanes W).foldl (fun w i => fcn i w) (p, s) ∧
    (lanes W).map Fin.val = List.range W ∧
    (lanes W).length = W ∧
    ((∀ i j w, j ≠ i → (fcn i w).1 j = w.1 j) → ∀ i,
      (foreach_loop fcn (lanesBefore i) (p, s)).1 i = p i ∧
      (foreach p fcn s).1 i = (fcn i (foreach_loop fcn (lanesBefore i) (p, s))).1 i) ∧
    (∀ (g : T → Fin W → T) (log : List (T × Fin W)),
      foreach p (foreach_lane_fcn (fun x i log => (g x i, log ++ [(x, i)]))) log
        = (fun i => g (p i) i, log ++ (lanes W).map (fun i => (p i, i)))) := by
  refine ⟨foreach_loop_eq_foldl fcn (lanes W) (p, s), List.map_coe_finRange W,
    List.length_finRange W, fun hlane i => ?_, fun g log => ?_⟩
  · rw [foreach, foreach_loop_eq_foldl, foreach_loop_eq_foldl]
    exact foldl_lane (fun w => w.1) fcn hlane (lanes W) (lanes_pairwise W) (p, s) i
      (mem_lanes i)
  · rw [foreach, foreach_loop_eq_foldl,
      foldl_lane_fcn_pure g (fun x i log => log ++ [(x, i)]) (lanes W) (lanes_nodup W) p log,
      foldl_append_map]
    simp [mem_lanes]

theorem foreach_effect_witness :
    (foreach ![1, 2, 3, 4]
      (fun i (w : pack Nat 4 × Nat) =>
        (Function.update w.1 i (w.1 i + 10 * w.2 + i.val), w.2 + 1)) 1).1 2 = 35 :=
  (((foreach_effect ![1, 2, 3, 4]
      (fun i (w : pack Nat 4 × Nat) =>
        (Function.update w.1 i (w.1 i + 10 * w.2 + i.val), w.2 + 1)) 1).2.2.2.1
      (fun _ _ _ h => Function.update_noteq h _ _)) 2).2.trans (by decide)

/-! ## Boundary masks -/

theorem any_scan_false_of_forall {B : Type} {W : Nat} (toBool : B → Bool) (a : pack B W)
    (h : ∀ i, toBool (a i) = false) : any_scan toBool a (lanes W) = false := by
  rw [Bool.eq_false_iff, Ne, any_lanes_iff]
  rintro ⟨i, hi⟩
  rw [h i] at hi
  exact Bool.false_ne_true hi

theorem any_scan_true_of_lane {B : Type} {W : Nat} (toBool : B → Bool) (a : pack B W)
    (i : Fin W) (h : toBool (a i) = true) : any_scan toBool a (lanes W) = true :=
  (any_lanes_iff toBool a).2 ⟨i, h⟩

theorem all_scan_true_of_forall {B : Type} {W : Nat} (toBool : B → Bool) (a : pack B W)
    (h : ∀ i, toBool (a i) = true) : all_scan toBool a (lanes W) = true :=
  (all_lanes_iff toBool a).2 h

theorem all_scan_false_of_lane {B : Type} {W : Nat} (toBool : B → Bool) (a : pack B W)
    (i : Fin W) (h : toBool (a i) = false) : all_scan toBool a (lanes W) = false := by
  rw [Bool.eq_false_iff, Ne, all_lanes_iff]
  intro hall
  rw [hall i] at h
  exact Bool.false_ne_true h.symm

theorem any16_avx512_false_of_forall (k : Nat) (h : ∀ i : Fin 16, k.testBit i = false) :
    any16_avx512 k = false := by
  rw [Bool.eq_false_iff, Ne, any16_avx512_iff]
  rintro ⟨i, hi⟩
  rw [h i] at hi
  exact Bool.false_ne_true hi

theorem all16_avx512_false_of_bit (k : Nat) (i : Fin 16) (h : k.testBit i = false) :
    all16_avx512 k = false := by
  rw [Bool.eq_false_iff, Ne, all16_avx512_iff]
  intro hall
  rw [hall i] at h
  exact Bool.false_ne_true h.symm

/-- C14: at widths 1, 4, 8 and 16 a mask with every lane false gives `any` false, `all` false
and `none` true, and a mask with every lane true gives `any` true, `all` true and `none` false,
on the fallback branches and on the SSE, AVX and AVX512 branches. On the SSE and AVX branches
every lane holds the all-zeros, respectively the all-ones, pattern; on the AVX512 branch the 16
bits of the mask register are all clear, respectively all set. -/
theorem any_all_none_boundaries {L : Type} (toBool : L → Bool) :
    (∀ m : pack L 1,
      ((∀ i, toBool (m i) = false) →
        any1 toBool m = false ∧ all1 toBool m = false ∧ none (any1 toBool) m = true) ∧
      ((∀ i, toBool (m i) = true) →
        any1 toBool m = true ∧ all1 toBool m = true ∧ none (any1 toBool) m = false)) ∧
    (∀ m : pack L 4,
      ((∀ i, toBool (m i) = false) →
        any4_fallback toBool m = false ∧ all4_fallback toBool m = false ∧
        none (any4_fallback toBool) m = true) ∧
      ((∀ i, toBool (m i) = true) →
        any4_fallback toBool m = true ∧ all4_fallback toBool m = true ∧
        none (any4_fallback toBool) m = false)) ∧
    (∀ m : pack L 8,
      ((∀ i, toBool (m i) = false) →
        any8_fallback toBool m = false ∧ all8_fallback toBool m = false ∧
        none (any8_fallback toBool) m = true) ∧
      ((∀ i, toBool (m i) = true) →
        any8_fallback toBool m = true ∧ all8_fallback toBool m = true ∧
        none (any8_fallback toBool) m = false)) ∧
    (∀ m : pack L 16,
      ((∀ i, toBool (m i) = false) →
        any16_fallback toBool m = false ∧ all16_fallback toBool m = false ∧
        none (any16_fallback toBool) m = true) ∧
      ((∀ i, toBool (m i) = true) →
        any16_fallback toBool m = true ∧ all16_fallback toBool m = true ∧
        none (any16_fallback toBool) m = false)) ∧
    (∀ m : pack Nat 4,
      ((∀ i, m i = allZeros) →
        any4_sse m = false ∧ all4_sse m = false ∧ none any4_sse m = true) ∧
      ((∀ i, m i = allOnes) →
        any4_sse m = true ∧ all4_sse m = true ∧ none any4_sse m = false)) ∧
    (∀ m : pack Nat 8,
      ((∀ i, m i = allZeros) →
        any8_avx m = false ∧ all8_avx m = false ∧ none any8_avx m = true) ∧
      ((∀ i, m i = allOnes) →
        any8_avx m = true ∧ all8_avx m = true ∧ none any8_avx m = false)) ∧
    (∀ k : Nat,
      ((∀ i : Fin 16, k.testBit i = false) →
        any16_avx512 k = false ∧ all16_avx512 k = false ∧ none any16_avx512 k = true) ∧
      ((∀ i : Fin 16, k.testBit i = true) →
        any16_avx512 k = true ∧ all16_avx512 k = true ∧ none any16_avx512 k = false)) := by
  have hnone : ∀ (M : Type) (f : M → Bool) (x : M) (b : Bool), f x = b → none f x = !b := by
    intro M f x b h
    rw [none, h]
  have hsF : ∀ {W : Nat} (m : pack Nat W), (∀ i, m i = allZeros) →
      ∀ i, signBit (m i) = false := fun m h i => by rw [h i, signBit_allZeros]
  have hsT : ∀ {W : Nat} (m : pack Nat W), (∀ i, m i = allOnes) →
      ∀ i, signBit (m i) = true := fun m h i => by rw [h i, signBit_allOnes]
  refine ⟨fun m => ⟨fun h => ?_, fun h => ?_⟩, fun m => ⟨fun h => ?_, fun h => ?_⟩,
    fun m => ⟨fun h => ?_, fun h => ?_⟩, fun m => ⟨fun h => ?_, fun h => ?_⟩,
    fun m => ⟨fun h => ?_, fun h => ?_⟩, fun m => ⟨fun h => ?_, fun h => ?_⟩,
    fun k => ⟨fun h => ?_, fun h => ?_⟩⟩
  · exact ⟨h 0, h 0, hnone _ _ _ _ (h 0)⟩
  · exact ⟨h 0, h 0, hnone _ _ _ _ (h 0)⟩
  · exact ⟨any_scan_false_of_forall toBool m h, all_scan_false_of_lane toBool m 0 (h 0),
      hnone _ _ _ _ (any_scan_false_of_forall toBool m h)⟩
  · exact ⟨any_scan_true_of_lane toBool m 0 (h 0), all_scan_true_of_forall toBool m h,
      hnone _ _ _ _ (any_scan_true_of_lane toBool m 0 (h 0))⟩
  · exact ⟨any_scan_false_of_forall toBool m h, all_scan_false_of_lane toBool m 0 (h 0),
      hnone _ _ _ _ (any_scan_false_of_forall toBool m h)⟩
  · exact ⟨any_scan_true_of_lane toBool m 0 (h 0), all_scan_true_of_forall toBool m h,
      hnone _ _ _ _ (any_scan_true_of_lane toBool m 0 (h 0))⟩
  · exact ⟨any_scan_false_of_forall toBool m h, all_scan_false_of_lane toBool m 0 (h 0),
      hnone _ _ _ _ (any_scan_false_of_forall toBool m h)⟩
  · exact ⟨any_scan_true_of_lane toBool m 0 (h 0), all_scan_true_of_forall toBool m h,
      hnone _ _ _ _ (any_scan_true_of_lane toBool m 0 (h 0))⟩
  · have ha : any4_sse m = false := by
      rw [any4_sse_eq_scan]
      exact any_scan_false_of_forall signBit m (hsF m h)
    have hb : all4_sse m = false := by
      rw [all4_sse_eq_scan]
      exact all_scan_false_of_lane signBit m 0 (hsF m h 0)
    exact ⟨ha, hb, hnone _ _ _ _ ha⟩
  · have ha : any4_sse m = true := by
      rw [any4_sse_eq_scan]
      exact any_scan_true_of_lane signBit m 0 (hsT m h 0)
    have hb : all4_sse m = true := by
      rw [all4_sse_eq_scan]
      exact all_scan_true_of_forall signBit m (hsT m h)
    exact ⟨ha, hb, hnone _ _ _ _ ha⟩
  · have ha : any8_avx m = false := by
      rw [any8_avx_eq_scan]
      exact any_scan_false_of_forall signBit m (hsF m h)
    have hb : all8_avx m = false := by
      rw [all8_avx_eq_scan]
      exact all_scan_false_of_lane signBit m 0 (hsF m h 0)
    exact ⟨ha, hb, hnone _ _ _ _ ha⟩
  · have ha : any8_avx m = true := by
      rw [any8_avx_eq_scan]
      exact any_scan_true_of_lane signBit m 0 (hsT m h 0)
    have hb : all8_avx m = true := by
      rw [all8_avx_eq_scan]
      exact all_scan_true_of_forall signBit m (hsT m h)
    exact ⟨ha, hb, hnone _ _ _ _ ha⟩
  · have ha := any16_avx512_false_of_forall k h
    exact ⟨ha, all16_avx512_false_of_bit k 0 (h 0), hnone _ _ _ _ ha⟩
  · have ha : any16_avx512 k = true := (any16_avx512_iff k).2 ⟨0, h 0⟩
    exact ⟨ha, (all16_avx512_iff k).2 h, hnone _ _ _ _ ha⟩

theorem any_all_none_boundaries_witness :
    (any8_fallback (fun v : Nat => v != 0) (fun _ => allZeros) = false ∧
      all8_fallback (fun v : Nat => v != 0) (fun _ => allZeros) = false ∧
      none (any8_fallback (fun v : Nat => v != 0)) (fun _ => allZeros) = true) ∧
    (any16_avx512 0xFFFF = true ∧ all16_avx512 0xFFFF = true ∧
      none any16_avx512 0xFFFF = false) :=
  ⟨((any_all_none_boundaries (fun v : Nat => v != 0)).2.2.1 (fun _ => allZeros)).1
      (by decide),
    ((any_all_none_boundaries (fun v : Nat => v != 0)).2.2.2.2.2.2 0xFFFF).2 (by decide)⟩

/-- C15: at widths 4, 8 and 16, for every lane index `k`, the mask that is true at lane `k` and
false at every other lane gives `any` true and `all` false, on the fallback branches and on the
SSE, AVX and AVX512 branches. -/
theorem single_true_lane {L : Type} (toBool : L → Bool) :
    (∀ (m : pack L 4) (k : Fin 4), (∀ i, toBool (m i) = decide (i = k)) →
      any4_fallback toBool m = true ∧ all4_fallback toBool m = false) ∧
    (∀ (m : pack L 8) (k : Fin 8), (∀ i, toBool (m i) = decide (i = k)) →
      any8_fallback toBool m = true ∧ all8_fallback toBool m = false) ∧
    (∀ (m : pack L 16) (k : Fin 16), (∀ i, toBool (m i) = decide (i = k)) →
      any16_fallback toBool m = true ∧ all16_fallback toBool m = false) ∧
    (∀ k : Fin 4,
      any4_sse (fun i => if i = k then allOnes else allZeros) = true ∧
      all4_sse (fun i => if i = k then allOnes else allZeros) = false) ∧
    (∀ k : Fin 8,
      any8_avx (fun i => if i = k then allOnes else allZeros) = true ∧
      all8_avx (fun i => if i = k then allOnes else allZeros) = false) ∧
    (∀ (r : Nat) (k : Fin 16), (∀ i : Fin 16, r.testBit i = decide (i = k)) →
      any16_avx512 r = true ∧ all16_avx512 r = false) := by
  have h4 : ∀ k : Fin 4, k + 1 ≠ k := by decide
  have h8 : ∀ k : Fin 8, k + 1 ≠ k := by decide
  have h16 : ∀ k : Fin 16, k + 1 ≠ k := by decide
  have hself : ∀ {W : Nat} (k : Fin W), decide (k = k) = true := fun k => by simp
  refine ⟨fun m k h => ?_, fun m k h => ?_, fun m k h => ?_, fun k => ?_, fun k => ?_,
    fun r k h => ?_⟩
  · exact ⟨any_scan_true_of_lane toBool m k ((h k).trans (hself k)),
      all_scan_false_of_lane toBool m (k + 1) ((h (k + 1)).trans (by simp [h4 k]))⟩
  · exact ⟨any_scan_true_of_lane toBool m k ((h k).trans (hself k)),
      all_scan_false_of_lane toBool m (k + 1) ((h (k + 1)).trans (by simp [h8 k]))⟩
  · exact ⟨any_scan_true_of_lane toBool m k ((h k).trans (hself k)),
      all_scan_false_of_lane toBool m (k + 1) ((h (k + 1)).trans (by simp [h16 k]))⟩
  · constructor
    · rw [any4_sse_eq_scan]
      exact any_scan_true_of_lane signBit _ k (by simp [signBit_allOnes])
    · rw [all4_sse_eq_scan]
      exact all_scan_false_of_lane signBit _ (k + 1) (by simp [h4 k, signBit_allZeros])
  · constructor
    · rw [any8_avx_eq_scan]
      exact any_scan_true_of_lane signBit _ k (by simp [signBit_allOnes])
    · rw [all8_avx_eq_scan]
      exact all_scan_false_of_lane signBit _ (k + 1) (by simp [h8 k, signBit_allZeros])
  · exact ⟨(any16_avx512_iff r).2 ⟨k, (h k).trans (hself k)⟩,
      all16_avx512_false_of_bit r (k + 1) ((h (k + 1)).trans (by simp [h16 k]))⟩

theorem single_true_lane_witness :
    (any4_fallback (fun v : Nat => v != 0) ![allZeros, allZeros, allZeros, allOnes] = true ∧
      all4_fallback (fun v : Nat => v != 0) ![allZeros, allZeros, allZeros, allOnes]
        = false) ∧
    (any16_avx512 0x0100 = true ∧ all16_avx512 0x0100 = false) :=
  ⟨(single_true_lane (fun v : Nat => v != 0)).1 ![allZeros, allZeros, allZeros, allOnes] 3
      (by decide),
    (single_true_lane (fun v : Nat => v != 0)).2.2.2.2.2 0x0100 8 (by decide)⟩

/-! ## The worked scenario and the blend paths -/

/-- C16: at width 4 with mask `[true, false, true, false]`, true values `[1, 2, 3, 4]` and false
values `[10, 20, 30, 40]`, the integer `select` returns `[1, 20, 3, 40]` on its fallback, its
SSE4.1 and its SSE branch, and `any` is true, `all` false and `none` false on the fallback and
on the SSE branch. -/
theorem concrete_scenario (toBool : Nat → Bool) (hT : toBool allOnes = true)
    (hF : toBool allZeros = false) (result : pack Nat 4) :
    (∀ i, select_vint4_fallback toBool result ![allOnes, allZeros, allOnes, allZeros]
      ![1, 2, 3, 4] ![10, 20, 30, 40] i = ![1, 20, 3, 40] i) ∧
    (∀ i, select_vint4_sse41 ![allOnes, allZeros, allOnes, allZeros]
      ![1, 2, 3, 4] ![10, 20, 30, 40] i = ![1, 20, 3, 40] i) ∧
    (∀ i, select_vint4_sse ![allOnes, allZeros, allOnes, allZeros]
      ![1, 2, 3, 4] ![10, 20, 30, 40] i = ![1, 20, 3, 40] i) ∧
    any4_fallback toBool ![allOnes, allZeros, allOnes, allZeros] = true ∧
    all4_fallback toBool ![allOnes, allZeros, allOnes, allZeros] = false ∧
    none (any4_fallback toBool) ![allOnes, allZeros, allOnes, allZeros] = false ∧
    any4_sse ![allOnes, allZeros, allOnes, allZeros] = true ∧
    all4_sse ![allOnes, allZeros, allOnes, allZeros] = false ∧
    none any4_sse ![allOnes, allZeros, allOnes, allZeros] = false := by
  have hany : any4_fallback toBool ![allOnes, allZeros, allOnes, allZeros] = true :=
    any_scan_true_of_lane toBool _ 0 hT
  refine ⟨fun i => ?_, by decide, by decide, hany,
    all_scan_false_of_lane toBool _ 1 hF, ?_, by decide, by decide, by decide⟩
  · rw [select_vint4_fallback, select_lanes_lane]
    fin_cases i
    · simp [hT]
    · simp [hF]
    · simp [hT]
    · simp [hF]
  · rw [none, hany]
    rfl

theorem concrete_scenario_witness :
    select_vint4_fallback (fun v => v != 0) (fun _ => 0)
      ![allOnes, allZeros, allOnes, allZeros] ![1, 2, 3, 4] ![10, 20, 30, 40] 1
        = ![1, 20, 3, 40] 1 ∧
    all4_fallback (fun v => v != 0) ![allOnes, allZeros, allOnes, allZeros] = false :=
  ⟨(concrete_scenario (fun v => v != 0) (by decide) (by decide) (fun _ => 0)).1 1,
    (concrete_scenario (fun v => v != 0) (by decide) (by decide) (fun _ => 0)).2.2.2.2.1⟩

/-- C17: the AVX512 branch of the 16-wide integer `select`, the masked OR
`_mm512_mask_or_epi32(f, m, t, t)`, is for every mask register `m` and all packs `t`, `f`
lane for lane the choice `m[i] ? t[i] : f[i]` of the fallback branch, bit `i` of the register
being the truth value of mask lane `i`. -/
theorem select_vint16_avx512_eq_fallback {L : Type} (toBool : L → Bool) (k : Nat)
    (m : pack L 16) (hk : ∀ i : Fin 16, k.testBit i = toBool (m i))
    (result t f : pack Nat 16) (i : Fin 16) :
    select_vint16_avx512 k t f i = select_vint16_fallback toBool result m t f i := by
  rw [select_vint16_fallback, select_lanes_lane, select_vint16_avx512, _mm512_mask_or_epi32,
    hk i, Nat.or_self]

theorem select_vint16_avx512_eq_fallback_witness :
    select_vint16_avx512 0x8001 (fun j => j.val + 1) (fun j => 100 + j.val) 15
      = select_vint16_fallback (fun v : Nat => v != 0) (fun _ => 0)
          (fun j => if j = 0 ∨ j = 15 then allOnes else allZeros)
          (fun j => j.val + 1) (fun j => 100 + j.val) 15 :=
  select_vint16_avx512_eq_fallback (fun v : Nat => v != 0) 0x8001
    (fun j => if j = 0 ∨ j = 15 then allOnes else allZeros) (by decide) (fun _ => 0)
    (fun j => j.val + 1) (fun j => 100 + j.val) 15

/-- C18: for canonical masks the hardware blends of `select` return lane `i` equal to `t[i]`
when `m[i]` is true and to `f[i]` otherwise, as the fallback branch does: `blendv(f, t, m)` on
the 4-wide SSE4.1 and the 8-wide AVX branch, in the float overload and in the integer overload
that reinterprets the lanes, and `mask_blend(m, f, t)` on the 16-wide AVX512 float branch. -/
theorem select_blend_eq_fallback (toBool : Nat → Bool) (hT : toBool allOnes = true)
    (hF : toBool allZeros = false) :
    (∀ (result m t f : pack Nat 4), canonical m → ∀ i,
      select_vfloat4_sse41 m t f i = (if toBool (m i) then t i else f i) ∧
      select_vfloat4_sse41 m t f i = select_vfloat4_fallback toBool result m t f i ∧
      select_vint4_sse41 m t f i = select_vint4_fallback toBool result m t f i) ∧
    (∀ (result m t f : pack Nat 8), canonical m → ∀ i,
      select_vfloat8_avx m t f i = (if toBool (m i) then t i else f i) ∧
      select_vfloat8_avx m t f i = select_vfloat8_fallback toBool result m t f i ∧
      select_vint8_avx m t f i = select_vint8_fallback toBool result m t f i) ∧
    (∀ (L : Type) (laneBool : L → Bool) (k : Nat) (m : pack L 16) (result t f : pack Nat 16),
      (∀ i : Fin 16, k.testBit i = laneBool (m i)) → ∀ i,
      select_vfloat16_avx512 k t f i = (if laneBool (m i) then t i else f i) ∧
      select_vfloat16_avx512 k t f i = select_vfloat16_fallback laneBool result m t f i) := by
  refine ⟨fun result m t f hm i => ?_, fun result m t f hm i => ?_,
    fun L laneBool k m result t f hk i => ?_⟩
  · have h := toBool_eq_signBit toBool hT hF m hm i
    rw [select_vfloat4_fallback, select_vint4_fallback, select_lanes_lane]
    simp [select_vfloat4_sse41, select_vint4_sse41, _mm_blendv_ps, _mm_castps_si128,
      _mm_castsi128_ps, h]
  · have h := toBool_eq_signBit toBool hT hF m hm i
    rw [select_vfloat8_fallback, select_vint8_fallback, select_lanes_lane]
    simp [select_vfloat8_avx, select_vint8_avx, _mm256_blendv_ps, _mm256_castps_si256,
      _mm256_castsi256_ps, h]
  · rw [select_vfloat16_fallback, select_lanes_lane]
    simp [select_vfloat16_avx512, _mm512_mask_blend_ps, hk i]

theorem select_blend_eq_fallback_witness :
    select_vfloat4_sse41 ![allOnes, allZeros, allOnes, allZeros] ![1, 2, 3, 4]
        ![10, 20, 30, 40] 2
      = (if (fun v : Nat => v != 0) (![allOnes, allZeros, allOnes, allZeros] 2)
          then ![1, 2, 3, 4] 2 else ![10, 20, 30, 40] 2) ∧
    select_vfloat4_sse41 ![allOnes, allZeros, allOnes, allZeros] ![1, 2, 3, 4]
        ![10, 20, 30, 40] 2
      = select_vfloat4_fallback (fun v : Nat => v != 0) (fun _ => 0)
          ![allOnes, allZeros, allOnes, allZeros] ![1, 2, 3, 4] ![10, 20, 30, 40] 2 ∧
    select_vint4_sse41 ![allOnes, allZeros, allOnes, allZeros] ![1, 2, 3, 4]
        ![10, 20, 30, 40] 2
      = select_vint4_fallback (fun v : Nat => v != 0) (fun _ => 0)
          ![allOnes, allZeros, allOnes, allZeros] ![1, 2, 3, 4] ![10, 20, 30, 40] 2 :=
  (select_blend_eq_fallback (fun v : Nat => v != 0) (by decide) (by decide)).1 (fun _ => 0)
    ![allOnes, allZeros, allOnes, allZeros] ![1, 2, 3, 4] ![10, 20, 30, 40]
    (by unfold canonical; decide) 2

/-- C19: at widths 4, 8 and 16, the pack that `foreach_active(m, p, fcn)` leaves when `fcn`
replaces the lane `x` it is handed by `g x` and touches nothing else is lane for lane the
fallback `select(m, q, p)` with `q[i] = g(p[i])`, in the float and in the integer overload. -/
theorem foreach_active_pack_eq_select {B T σ : Type} (toBool : B → Bool) (g : T → T)
    (s : σ) :
    (∀ (result : pack T 4) (m : pack B 4) (p : pack T 4) (i : Fin 4),
      (foreach_active_pack toBool m p (foreach_active_lane_fcn (fun x s => (g x, s))) s).2.1 i
        = select_vfloat4_fallback toBool result m (fun j => g (p j)) p i ∧
      (foreach_active_pack toBool m p (foreach_active_lane_fcn (fun x s => (g x, s))) s).2.1 i
        = select_vint4_fallback toBool result m (fun j => g (p j)) p i) ∧
    (∀ (result : pack T 8) (m : pack B 8) (p : pack T 8) (i : Fin 8),
      (foreach_active_pack toBool m p (foreach_active_lane_fcn (fun x s => (g x, s))) s).2.1 i
        = select_vfloat8_fallback toBool result m (fun j => g (p j)) p i ∧
      (foreach_active_pack toBool m p (foreach_active_lane_fcn (fun x s => (g x, s))) s).2.1 i
        = select_vint8_fallback toBool result m (fun j => g (p j)) p i) ∧
    (∀ (result : pack T 16) (m : pack B 16) (p : pack T 16) (i : Fin 16),
      (foreach_active_pack toBool m p (foreach_active_lane_fcn (fun x s => (g x, s))) s).2.1 i
        = select_vfloat16_fallback toBool result m (fun j => g (p j)) p i ∧
      (foreach_active_pack toBool m p (foreach_active_lane_fcn (fun x s => (g x, s))) s).2.1 i
        = select_vint16_fallback toBool result m (fun j => g (p j)) p i) := by
  refine ⟨fun result m p i => ⟨?_, ?_⟩, fun result m p i => ⟨?_, ?_⟩,
    fun result m p i => ⟨?_, ?_⟩⟩
  · rw [foreach_active_pack_lane_fcn, select_vfloat4_fallback, select_lanes_lane]
  · rw [foreach_active_pack_lane_fcn, select_vint4_fallback, select_lanes_lane]
  · rw [foreach_active_pack_lane_fcn, select_vfloat8_fallback, select_lanes_lane]
  · rw [foreach_active_pack_lane_fcn, select_vint8_fallback, select_lanes_lane]
  · rw [foreach_active_pack_lane_fcn, select_vfloat16_fallback, select_lanes_lane]
  · rw [foreach_active_pack_lane_fcn, select_vint16_fallback, select_lanes_lane]

/-- C20: the canonical-mask precondition is needed for the two 4-wide hardware branches of
`select` to agree: with the mask lane `0x00000001`, which is neither canonical pattern and has
its sign bit clear, true value `1` and false value `0` in lane 0, the SSE synthesis
`(m AND t) OR ((NOT m) AND f)` returns `1` in lane 0 and the SSE4.1 blend `blendv(f, t, m)`
returns `0` there, in the float and in the integer overload. -/
theorem select4_sse_ne_sse41_noncanonical :
    ¬ canonical (![0x00000001, allZeros, allZeros, allZeros] : pack Nat 4) ∧
    signBit 0x00000001 = false ∧
    select_vfloat4_sse ![0x00000001, allZeros, allZeros, allZeros] ![1, 0, 0, 0]
      ![0, 0, 0, 0] 0 = 1 ∧
    select_vfloat4_sse41 ![0x00000001, allZeros, allZeros, allZeros] ![1, 0, 0, 0]
      ![0, 0, 0, 0] 0 = 0 ∧
    select_vint4_sse ![0x00000001, allZeros, allZeros, allZeros] ![1, 0, 0, 0]
      ![0, 0, 0, 0] 0 = 1 ∧
    select_vint4_sse41 ![0x00000001, allZeros, allZeros, allZeros] ![1, 0, 0, 0]
      ![0, 0, 0, 0] 0 = 0 ∧
    (∃ m t f : pack Nat 4, lanes32 m ∧ lanes32 t ∧ lanes32 f ∧ ¬ canonical m ∧
      select_vfloat4_sse m t f ≠ select_vfloat4_sse41 m t f ∧
      select_vint4_sse m t f ≠ select_vint4_sse41 m t f) := by
  have hnc : ¬ canonical (![0x00000001, allZeros, allZeros, allZeros] : pack Nat 4) := by
    unfold canonical
    decide
  refine ⟨hnc, by decide, by decide, by decide, by decide, by decide,
    ![0x00000001, allZeros, allZeros, allZeros], ![1, 0, 0, 0], ![0, 0, 0, 0],
    by unfold lanes32; decide, by unfold lanes32; decide, by unfold lanes32; decide, hnc,
    ?_, ?_⟩
  · intro h
    have h0 := congrFun h 0
    revert h0
    decide
  · intro h
    have h0 := congrFun h 0
    revert h0
    decide

end tsimd
